import Mathlib

/-!
Verification of the idempotent, windowed ETL-and-sync pipeline
(`scripts/ingest_mysql.py`, `scripts/sync_to_mongo.py`,
`scripts/validate_consistency.py`) against its natural-language
specification.

Modelling conventions (shallow embedding):
* Dates/datetimes are encoded as natural numbers in `yyyymmdd` form
  (e.g. `"2023-01-01"` becomes `20230101`).  For ISO-formatted dates,
  lexicographic string comparison (used by MySQL and by MongoDB on the
  string `created_date` bounds) agrees with numeric comparison in this
  encoding, so the window predicates `created_date >= s AND created_date < e`
  translate to `s ≤ d ∧ d < e` on the encoding.
* A pandas `DataFrame` chunk is a `List ChunkRow`; a `NaN` / `NaT` cell is
  `Option.none`.  `ChunkRow` holds the chunk after the column-normalization,
  `pd.to_datetime(..., errors="coerce")` and `pd.to_numeric(..., errors="coerce")`
  steps of `clean_chunk`, i.e. loosely-typed cells have already been coerced
  to typed-or-null values exactly as those two calls do.
* Floating-point coordinates are modelled as rationals (`ℚ`).
* The MySQL `service_requests` table and the MongoDB collection are lists of
  rows/documents; SQL/Mongo statements are translated operation by operation.
* Failures of external writes are modelled by explicit failure oracles
  (`fail : Row → Bool`, `opFail : MDoc → Bool`): the oracle says which write
  raises, and the Lean function reproduces the script's commit/rollback/raise
  control flow for every oracle.
-/

/-- A raw CSV chunk row of `clean_chunk`, after column normalization and the
`errors="coerce"` datetime/numeric coercions: every cell is typed-or-null.
Missing (`NaN`/`NaT`) cells are `none`. -/
structure ChunkRow where
  unique_key : Option Nat
  created_date : Option Nat
  closed_date : Option Nat
  agency : Option String
  complaint_type : Option String
  descriptor : Option String
  borough : Option String
  incident_zip : Option String
  latitude : Option ℚ
  longitude : Option ℚ
deriving DecidableEq, Repr

/-- A cleaned row, as inserted into `service_requests`: the final column
selection of `clean_chunk` (no `incident_zip`), with `unique_key` and
`created_date` non-null (guaranteed by the required-field filter). -/
structure Row where
  unique_key : Nat
  created_date : Nat
  closed_date : Option Nat
  agency : Option String
  complaint_type : Option String
  descriptor : Option String
  borough : Option String
  latitude : Option ℚ
  longitude : Option ℚ
deriving DecidableEq, Repr

/-- An `ingestion_log` row (`dataset_file` is the primary key).  The
`loaded_at`/`elapsed_seconds`/`rows_per_sec` telemetry columns carry no
control flow and are elided. -/
structure LedgerEntry where
  dataset_file : String
  ingested_rows : Nat
deriving DecidableEq, Repr

/-- The MySQL database state seen by `ingest_mysql`. -/
structure MySQLState where
  service_requests : List Row
  ingestion_log : List LedgerEntry
deriving DecidableEq, Repr

/- ### Window Resolver (`parse_date_range_from_filename` in both scripts) -/

/-- Numeric value of a decimal digit character. -/
def digitVal (c : Char) : Nat := c.toNat - 48

/-- Leftmost occurrence of four consecutive decimal digits, as
`re.search(r"(\d4)", ...)` finds it (scan positions left to right). -/
def extractYear4Aux : List Char → Option Nat
  | a :: b :: c :: d :: rest =>
      if a.isDigit && b.isDigit && c.isDigit && d.isDigit then
        some (digitVal a * 1000 + digitVal b * 100 + digitVal c * 10 + digitVal d)
      else
        extractYear4Aux (b :: c :: d :: rest)
  | _ => none

/-- Extract the first 4-digit year token from a filename. -/
def extractYear4 (s : String) : Option Nat := extractYear4Aux s.toList

/-- The `yyyymmdd` encoding of the date string `f"{y}-01-01"`. -/
def dateOfYear (y : Nat) : Nat := y * 10000 + 101

/-- Embedding of `ingest_mysql.parse_date_range_from_filename`: raises `ValueError` when no
4-digit token is found, otherwise returns `(year-01-01, (year+1)-01-01)`. -/
def parse_date_range_from_filename (filename : String) : Except String (Nat × Nat) :=
  match extractYear4 filename with
  | none => .error "Could not parse year from filename"
  | some y => .ok (dateOfYear y, dateOfYear (y + 1))

/-- Embedding of `sync_to_mongo.parse_date_range_from_filename`: same extraction, but on a
missing year token it falls back to the current year (with a warning) instead
of raising.  `currentYear` stands for `datetime.now().strftime("%Y")`. -/
def parse_date_range_sync (filename : String) (currentYear : Nat) : Nat × Nat :=
  let y := (extractYear4 filename).getD currentYear
  (dateOfYear y, dateOfYear (y + 1))

/- ### Record Normalizer (`clean_chunk` and helpers) -/

/-- The fixed ZIP-prefix-to-borough lookup table of `infer_borough_from_zip`. -/
def borough_map : List (String × String) :=
  [("100", "MANHATTAN"), ("101", "MANHATTAN"), ("102", "MANHATTAN"),
   ("103", "STATEN ISLAND"), ("104", "BRONX"),
   ("111", "QUEENS"), ("112", "BROOKLYN"), ("113", "QUEENS"),
   ("114", "QUEENS"), ("116", "QUEENS")]

/-- Embedding of `infer_borough_from_zip`: `None` for strings shorter than 3 characters,
else the table lookup on the 3-character ZIP prefix. -/
def infer_borough_from_zip (zipcode : String) : Option String :=
  if zipcode.length < 3 then none
  else borough_map.lookup (zipcode.take 3)

/-- Effect of `.astype(str)` on a possibly-missing `incident_zip` cell: pandas renders a
missing value as the string `"nan"`. -/
def zipAsStr (z : Option String) : String :=
  match z with
  | some s => s
  | none => "nan"

/-- Step 3 of `clean_chunk`: fill a null `borough` from the ZIP prefix
(`df.loc[mask, "borough"] = df.loc[mask, "incident_zip"].astype(str).map(...)`).
Rows with a non-null borough are untouched; an unmapped prefix leaves the
borough null. -/
def inferBoroughFill (r : ChunkRow) : ChunkRow :=
  if r.borough.isNone then
    { r with borough := infer_borough_from_zip (zipAsStr r.incident_zip) }
  else r

/-- The geofence bound `40.5` (written with `mkRat` so that kernel evaluation
works; proved equal to the decimal literal below). -/
def latLoBound : ℚ := mkRat 405 10

/-- The geofence bound `40.9`. -/
def latHiBound : ℚ := mkRat 409 10

/-- The geofence bound `-74.3`. -/
def lngLoBound : ℚ := mkRat (-743) 10

/-- The geofence bound `-73.7`. -/
def lngHiBound : ℚ := mkRat (-737) 10

/-- Step 4 of `clean_chunk`, the geofence mask:
`df["latitude"].between(40.5, 40.9) & df["longitude"].between(-74.3, -73.7)`.
pandas `between` evaluates to `False` on a missing value, so a row with a null
coordinate gets mask `false`. -/
def nycMask (r : ChunkRow) : Bool :=
  match r.latitude, r.longitude with
  | some la, some lo =>
      decide (latLoBound ≤ la) && decide (la ≤ latHiBound) &&
      decide (lngLoBound ≤ lo) && decide (lo ≤ lngHiBound)
  | _, _ => false

/-- Step 1 of the quality filters: `df.dropna(subset=["unique_key", "created_date"])`. -/
def stage_required (rows : List ChunkRow) : List ChunkRow :=
  rows.filter (fun r => r.unique_key.isSome && r.created_date.isSome)

/-- Step 2: `df.drop_duplicates(subset=["unique_key"], keep="last")` — a row
survives iff no later row in the chunk has the same `unique_key`. -/
def dedupKeepLast : List ChunkRow → List ChunkRow
  | [] => []
  | r :: rest =>
      if rest.any (fun s => s.unique_key == r.unique_key) then dedupKeepLast rest
      else r :: dedupKeepLast rest

/-- The final column selection `df[final_cols]` of `clean_chunk`: `incident_zip`
is dropped; defined for rows that passed the required-field filter. -/
def toCleanRow (r : ChunkRow) : Option Row :=
  match r.unique_key, r.created_date with
  | some k, some d =>
      some { unique_key := k, created_date := d, closed_date := r.closed_date,
             agency := r.agency, complaint_type := r.complaint_type,
             descriptor := r.descriptor, borough := r.borough,
             latitude := r.latitude, longitude := r.longitude }
  | _, _ => none

/-- The cleaning-telemetry dictionary returned by `clean_chunk` (computed
exactly as the source computes it, including its use of the already-final
frame for the `dropped_required`/`dropped_dupes` entries). -/
structure CleanStats where
  original : Nat
  cleaned : Nat
  dropped_required : Nat
  dropped_dupes : Nat
  nyc_bounds_filtered : Nat
deriving DecidableEq, Repr

/-- Embedding of `clean_chunk`: required-field filter, dedup keeping the last occurrence,
borough inference, geofence filter, final column selection. -/
def clean_chunk (rows : List ChunkRow) : List Row × CleanStats :=
  let afterRequired := stage_required rows
  let afterDedup := dedupKeepLast afterRequired
  let afterBorough := afterDedup.map inferBoroughFill
  let afterGeo := afterBorough.filter nycMask
  let cleaned := afterGeo.filterMap toCleanRow
  (cleaned,
   { original := rows.length,
     cleaned := cleaned.length,
     dropped_required := rows.length - cleaned.length,
     dropped_dupes := 0,
     nyc_bounds_filtered := afterBorough.countP (fun r => !nycMask r) })

/- ### Primary Loader (`insert_batch`, `ingest_mysql` and helpers) -/

/-- Effect of one `INSERT ... ON DUPLICATE KEY UPDATE` row on
`service_requests` (`unique_key` is the primary key): insert if the key is
absent, otherwise overwrite every non-key column — since the statement updates
all non-key columns, the stored row becomes the incoming row. -/
def upsertRow (table : List Row) (r : Row) : List Row :=
  if table.any (fun s => s.unique_key == r.unique_key) then
    table.map (fun s => if s.unique_key == r.unique_key then r else s)
  else
    table ++ [r]

/-- Embedding of `cur.executemany(sql, data)`: apply the upsert row by row inside the open
transaction; raise at the first failing write (`fail` is the failure oracle for
store-level write errors). -/
def execMany (fail : Row → Bool) : List Row → List Row → Except Unit (List Row)
  | table, [] => .ok table
  | table, r :: rest =>
      if fail r then .error ()
      else execMany fail (upsertRow table r) rest

/-- Embedding of `insert_batch`: skip an empty frame; otherwise run the batch inside a
transaction — on success commit, on any exception roll the whole batch back
(the committed table is unchanged) and re-raise.  The `error` payload is the
table as left after the rollback. -/
def insert_batch (table : List Row) (df : List Row) (fail : Row → Bool) :
    Except (List Row) (List Row) :=
  if df.isEmpty then .ok table
  else
    match execMany fail table df with
    | .ok t => .ok t
    | .error _ => .error table

/-- Embedding of `log_ingestion_start`: true iff an `ingestion_log` row exists for
`filename` (the caller then skips the whole load). -/
def log_ingestion_start (log : List LedgerEntry) (filename : String) : Bool :=
  log.any (fun e => e.dataset_file == filename)

/-- The final `INSERT INTO ingestion_log ... ON DUPLICATE KEY UPDATE` of
`ingest_mysql`: upsert the ledger row keyed by `dataset_file`. -/
def upsertLedger (log : List LedgerEntry) (filename : String) (rows : Nat) :
    List LedgerEntry :=
  if log.any (fun e => e.dataset_file == filename) then
    log.map (fun e => if e.dataset_file == filename then
      { e with ingested_rows := rows } else e)
  else
    log ++ [{ dataset_file := filename, ingested_rows := rows }]

/-- Embedding of `cleanup_previous_data`: resolve the window from the filename and delete
the `service_requests` rows whose `created_date` falls in it; if the year
cannot be parsed, catch the `ValueError`, warn, and skip the cleanup. -/
def cleanup_previous_data (table : List Row) (filename : String) : List Row :=
  match parse_date_range_from_filename filename with
  | .error _ => table
  | .ok (s, e) =>
      table.filter (fun r => !(s ≤ r.created_date && r.created_date < e))

/-- The per-chunk loop of `ingest_mysql`: clean each chunk, skip empty cleaned
frames, insert the rest batch by batch, accumulating `total_rows`; a batch
failure aborts the remaining chunks and propagates (the `error` payload is the
table with all previously committed batches applied). -/
def ingestChunks (fail : Row → Bool) :
    List Row → List (List ChunkRow) → Nat → Except (List Row × Nat) (List Row × Nat)
  | table, [], total => .ok (table, total)
  | table, chunk :: rest, total =>
      let df := (clean_chunk chunk).1
      if df.isEmpty then ingestChunks fail table rest total
      else
        match insert_batch table df fail with
        | .ok t2 => ingestChunks fail t2 rest (total + df.length)
        | .error t => .error (t, total)

/-- Embedding of `ingest_mysql`: idempotency gate on the ingestion ledger, window-scoped
cleanup, per-chunk clean-and-insert loop, and finally the ledger upsert.  An
exception anywhere aborts the run without writing the ledger entry (the
already-committed batches remain). -/
def ingest_mysql (st : MySQLState) (filename : String)
    (chunks : List (List ChunkRow)) (fail : Row → Bool) :
    Except MySQLState MySQLState :=
  if log_ingestion_start st.ingestion_log filename then .ok st
  else
    let t1 := cleanup_previous_data st.service_requests filename
    match ingestChunks fail t1 chunks 0 with
    | .error (t, _) => .error { st with service_requests := t }
    | .ok (t2, total) =>
        .ok { service_requests := t2,
              ingestion_log := upsertLedger st.ingestion_log filename total }

/- ### Consistency Validator (`validate_consistency.py`) -/

/-- The value `abs(mysql_count - mongo_count)` on Python integers. -/
def mismatchOf (mysql_count mongo_count : Nat) : Nat :=
  ((mysql_count : Int) - (mongo_count : Int)).natAbs

/-- Embedding of `validate_counts` of `validate_consistency.py`, starting after the two
`COUNT` queries (the counts are its inputs here).  In one-shot mode
(`update_metrics = false`) an empty store or a mismatch above 1000 raises an
`AssertionError`; in metrics mode those branches return the triple instead. -/
def validate_counts (mysql_count mongo_count : Nat) (update_metrics : Bool) :
    Except String (Nat × Nat × Nat) :=
  let mismatch := mismatchOf mysql_count mongo_count
  if mongo_count == 0 || mysql_count == 0 then
    if update_metrics then .ok (mysql_count, mongo_count, mismatch)
    else .error "One of the databases is empty"
  else if mismatch > 1000 then
    if update_metrics then .ok (mysql_count, mongo_count, mismatch)
    else .error "Count difference between MySQL and MongoDB is too large"
  else
    .ok (mysql_count, mongo_count, mismatch)

/-- The Prometheus gauges set by `validate_counts` in metrics mode
(`last_check_timestamp` carries no control flow and is elided). -/
structure Gauges where
  mysql_row_count : Nat
  mongo_doc_count : Nat
  sync_mismatch_count : Nat
  sync_status : Nat
deriving DecidableEq, Repr

/-- One scheduled check of the polling loop: either both `COUNT` queries
succeed (yielding the two counts), or the check raises (connection error,
etc.). -/
inductive CheckOutcome where
  | counts (mysql_count mongo_count : Nat)
  | connError (msg : String)
deriving DecidableEq, Repr

/-- Observable state of the metrics poller: the last published gauges, the
number of completed loop iterations, and the logged check errors. -/
structure PollerState where
  gauges : Option Gauges
  iterations : Nat
  errors : List String
deriving DecidableEq, Repr

/-- One iteration of the `while True` loop of `run_metrics_server`: run
`validate_counts(update_metrics=True)`; any exception is caught, logged, and
the loop moves on to the next interval.  On a successful pair of count
queries the gauges are published before the validation checks, exactly as the
source sets them. -/
def poll_step (st : PollerState) (o : CheckOutcome) : PollerState :=
  match o with
  | .connError e =>
      { st with iterations := st.iterations + 1, errors := st.errors ++ [e] }
  | .counts a b =>
      let g : Gauges :=
        { mysql_row_count := a, mongo_doc_count := b,
          sync_mismatch_count := mismatchOf a b,
          sync_status := if mismatchOf a b == 0 then 1 else 0 }
      match validate_counts a b true with
      | .ok _ =>
          { gauges := some g, iterations := st.iterations + 1, errors := st.errors }
      | .error e =>
          { gauges := some g, iterations := st.iterations + 1,
            errors := st.errors ++ [e] }

/-- Embedding of `run_metrics_server`, restricted to a finite schedule of checks: fold the
loop body over the scheduled check outcomes. -/
def run_metrics_server (outcomes : List CheckOutcome) : PollerState :=
  outcomes.foldl poll_step { gauges := none, iterations := 0, errors := [] }

/- ### Secondary Sync Engine (`sync_to_mongo.py`) -/

/-- A document of the MongoDB `service_requests` collection: `dict(r)` plus the
added `_id` field. -/
structure MDoc where
  _id : Nat
  unique_key : Nat
  created_date : Nat
  closed_date : Option Nat
  agency : Option String
  complaint_type : Option String
  descriptor : Option String
  borough : Option String
  latitude : Option ℚ
  longitude : Option ℚ
deriving DecidableEq, Repr

/-- A `mongo_sync_log` document.  `started_at`/`synced_at`/`duration_seconds`
are wall-clock telemetry and are elided; a document is identified here by its
position in the (append-only) list, standing in for its auto-generated
Mongo `_id`. -/
structure SyncLogEntry where
  window_start : Nat
  window_end : Nat
  status : String
  rows_synced : Nat
deriving DecidableEq, Repr

/-- The MongoDB database state seen by `sync_to_mongo`: the data collection
and the sync-ledger collection. -/
structure MongoState where
  coll : List MDoc
  sync_log : List SyncLogEntry
deriving DecidableEq, Repr

/-- Exceptions `sync_to_mongo` can raise; each carries the database state at
the raise (connections are closed in `finally`, nothing else is written). -/
inductive SyncError where
  | uriMissing (st : MongoState)
  | bulkWrite (st : MongoState)
deriving DecidableEq, Repr

/-- The MongoDB state after a run, successful or raised. -/
def resultState : Except SyncError MongoState → MongoState
  | .ok st => st
  | .error (.uriMissing st) => st
  | .error (.bulkWrite st) => st

/-- The data collection after a run, successful or raised. -/
def resultColl (r : Except SyncError MongoState) : List MDoc :=
  (resultState r).coll

/-- Effect of `if not filename: filename = os.getenv("NYC311_CSV", "unknown")` — a
missing or empty filename argument falls back to the configured CSV name. -/
def resolve_filename (filename : Option String) (env_csv : String) : String :=
  match filename with
  | none => env_csv
  | some f => if f = "" then env_csv else f

/-- Embedding of `fetch_mysql_rows`: the `service_requests` rows with `created_date` in
`[s, e)`, with `LIMIT limit` when a non-zero limit is given (`if limit:` is
false for both `None` and `0`).  The Decimal-to-float coordinate conversion
is the identity in the rational model. -/
def fetch_mysql_rows (table : List Row) (s e : Nat) (limit : Option Nat) :
    List Row :=
  let rows := table.filter (fun r => s ≤ r.created_date && r.created_date < e)
  match limit with
  | some l => if l == 0 then rows else rows.take l
  | none => rows

/-- Embedding of `cleanup_previous_mongo`: `delete_many` of the documents whose
`created_date` lies in `[s, e)`. -/
def cleanup_previous_mongo (coll : List MDoc) (s e : Nat) : List MDoc :=
  coll.filter (fun d => !(s ≤ d.created_date && d.created_date < e))

/-- The document built for a fetched row: `doc = dict(r); doc["_id"] = r["unique_key"]`. -/
def row_to_doc (r : Row) : MDoc :=
  { _id := r.unique_key, unique_key := r.unique_key,
    created_date := r.created_date, closed_date := r.closed_date,
    agency := r.agency, complaint_type := r.complaint_type,
    descriptor := r.descriptor, borough := r.borough,
    latitude := r.latitude, longitude := r.longitude }

/-- One `UpdateOne({"_id": d._id}, {"$set": d}, upsert=True)`: replace the
document matching `_id` (the `$set` covers every field), or insert `d` if no
document matches. -/
def mongoUpsert (coll : List MDoc) (d : MDoc) : List MDoc :=
  if coll.any (fun x => x._id == d._id) then
    coll.map (fun x => if x._id == d._id then d else x)
  else
    coll ++ [d]

/-- The `docs[i : i + batch_size]` slicing with `batch_size = 1000`. -/
def chunkList : List MDoc → List (List MDoc)
  | [] => []
  | x :: xs => (x :: xs).take 1000 :: chunkList (xs.drop 999)
termination_by l => l.length
decreasing_by
  simp only [List.length_drop, List.length_cons]
  omega

/-- One unordered `bulk_write` over a batch: every op whose write does not
fail is applied (continue-on-error), the per-batch applied count is
`upserted_count + modified_count` (an op that matches an identical document
modifies nothing), and the batch reports failure iff some op failed. -/
def applyBatchCount (opFail : MDoc → Bool) :
    List MDoc → List MDoc → List MDoc × Nat × Bool
  | coll, [] => (coll, 0, false)
  | coll, d :: rest =>
      if opFail d then
        let r := applyBatchCount opFail coll rest
        (r.1, r.2.1, true)
      else
        let c1 := mongoUpsert coll d
        let k := if c1 == coll then 0 else 1
        let r := applyBatchCount opFail c1 rest
        (r.1, r.2.1 + k, r.2.2)

/-- The batch loop of `sync_to_mongo`: apply each batch with an unordered
bulk write, accumulate `total_upserted`; a failed batch re-raises and aborts
the remaining batches (the `error` payload is the collection with the
non-failing ops of the failed batch applied). -/
def applyBatches (opFail : MDoc → Bool) :
    List MDoc → List (List MDoc) → Nat → Except (List MDoc) (List MDoc × Nat)
  | coll, [], total => .ok (coll, total)
  | coll, b :: rest, total =>
      let r := applyBatchCount opFail coll b
      if r.2.2 then .error r.1
      else applyBatches opFail r.1 rest (total + r.2.1)

/-- Embedding of `log_sync_end`: `update_one` on the ledger document inserted by this run —
that document is the last of the list, since `log_sync_start` appends it. -/
def updateLast : List SyncLogEntry → String → Nat → List SyncLogEntry
  | [], _, _ => []
  | [x], status, n => [{ x with status := status, rows_synced := n }]
  | x :: y :: rest, status, n => x :: updateLast (y :: rest) status n

/-- Embedding of `sync_to_mongo`: fail fast if `MONGODB_URI` is unset; resolve the window
from the filename (current-year fallback); insert a `running` ledger entry;
window-scoped cleanup; fetch the window's rows from MySQL; on zero rows close
the ledger with `no_data` and stop; otherwise transform to documents
(`_id := unique_key`), upsert in batches of 1000, and close the ledger with
`success` and the applied count.  A bulk-write failure propagates with the
ledger entry still `running`. -/
def sync_to_mongo (mysql : List Row) (mongo : MongoState)
    (mongo_uri : Option String) (filename : Option String)
    (limit : Option Nat) (currentYear : Nat) (opFail : MDoc → Bool)
    (env_csv : String) : Except SyncError MongoState :=
  if mongo_uri.isNone then .error (.uriMissing mongo)
  else
    let fname := resolve_filename filename env_csv
    let w := parse_date_range_sync fname currentYear
    let log1 := mongo.sync_log ++
      [{ window_start := w.1, window_end := w.2, status := "running",
         rows_synced := 0 }]
    let coll1 := cleanup_previous_mongo mongo.coll w.1 w.2
    let rows := fetch_mysql_rows mysql w.1 w.2 limit
    if rows.isEmpty then
      .ok { coll := coll1, sync_log := updateLast log1 "no_data" 0 }
    else
      let docs := rows.map row_to_doc
      match applyBatches opFail coll1 (chunkList docs) 0 with
      | .error c2 => .error (.bulkWrite { coll := c2, sync_log := log1 })
      | .ok (c2, total) =>
          .ok { coll := c2, sync_log := updateLast log1 "success" total }

/- Boolean store invariants used for the keyed-upsert claims. -/

/-- Every document's `_id` equals its `unique_key` field (true of every
document the sync engine writes). -/
def collIdsOK (coll : List MDoc) : Bool :=
  coll.all (fun d => d._id == d.unique_key)

/-- No two documents agree on `f` (with `f := MDoc._id` this is MongoDB's
primary-key uniqueness of `_id`). -/
def noDupBy (f : MDoc → Nat) : List MDoc → Bool
  | [] => true
  | d :: rest => rest.all (fun x => !(f x == f d)) && noDupBy f rest

/-- The collection as left by the batch loop, whether it completed or raised
mid-way (the `error` payload of `applyBatches` is the collection at the
raise). -/
def batchesColl (r : Except (List MDoc) (List MDoc × Nat)) : List MDoc :=
  match r with
  | .ok (c, _) => c
  | .error c => c

/-- The last row of a chunk carrying the given `unique_key` — the occurrence
`drop_duplicates(..., keep="last")` retains. -/
def lastWithKey (k : Nat) : List ChunkRow → Option ChunkRow
  | [] => none
  | r :: rest =>
      match lastWithKey k rest with
      | some s => some s
      | none => if r.unique_key == some k then some r else none

theorem latLoBound_eq : latLoBound = (40.5 : ℚ) := by norm_num [latLoBound]

theorem latHiBound_eq : latHiBound = (40.9 : ℚ) := by norm_num [latHiBound]

theorem lngLoBound_eq : lngLoBound = (-74.3 : ℚ) := by
  rw [lngLoBound, Rat.mkRat_eq_div]; norm_num

theorem lngHiBound_eq : lngHiBound = (-73.7 : ℚ) := by
  rw [lngHiBound, Rat.mkRat_eq_div]; norm_num

example :
    nycMask { unique_key := some 1, created_date := some 20230101,
              closed_date := none, agency := none, complaint_type := none,
              descriptor := none, borough := none, incident_zip := none,
              latitude := some (mkRat 407128 10000),
              longitude := some (mkRat (-740060) 10000) } = true := by
  decide

example :
    nycMask { unique_key := some 1, created_date := some 20230101,
              closed_date := none, agency := none, complaint_type := none,
              descriptor := none, borough := none, incident_zip := none,
              latitude := none, longitude := some (mkRat (-740060) 10000) } = false := by
  decide

example : extractYear4 "311_Service_Requests_from_2011.csv" = some 2011 := by decide

example : extractYear4 "data.csv" = none := by decide

example : infer_borough_from_zip "11201" = some "BROOKLYN" := by decide

example : infer_borough_from_zip "99999" = none := by decide

/- ### Helper lemmas -/

theorem execMany_error (fail : Row → Bool) :
    ∀ (df : List Row) (table : List Row), df.any fail = true →
      execMany fail table df = .error () := by
  intro df
  induction df with
  | nil => intro table h; simp at h
  | cons r rest ih =>
      intro table h
      rw [List.any_cons] at h
      by_cases hr : fail r = true
      · simp [execMany, hr]
      · simp only [Bool.not_eq_true] at hr
        simp only [hr, Bool.false_or] at h
        simp [execMany, hr, ih _ h]

theorem execMany_ok (fail : Row → Bool) :
    ∀ (df : List Row) (table : List Row), df.any fail = false →
      execMany fail table df = .ok (df.foldl upsertRow table) := by
  intro df
  induction df with
  | nil => intro table _; rfl
  | cons r rest ih =>
      intro table h
      rw [List.any_cons, Bool.or_eq_false_iff] at h
      simp [execMany, h.1, ih _ h.2, List.foldl_cons]

theorem upsertRow_mem_self (t : List Row) (r : Row) : r ∈ upsertRow t r := by
  unfold upsertRow
  by_cases h : t.any (fun s => s.unique_key == r.unique_key) = true
  · simp only [h, if_true]
    rcases List.any_eq_true.mp h with ⟨x, hx, hkey⟩
    exact List.mem_map.mpr ⟨x, hx, by simp [hkey]⟩
  · simp only [Bool.not_eq_true] at h
    simp [h]

theorem upsertRow_mem_other (t : List Row) (r : Row) (x : Row)
    (hx : x ∈ t) (hne : x.unique_key ≠ r.unique_key) : x ∈ upsertRow t r := by
  unfold upsertRow
  by_cases h : t.any (fun s => s.unique_key == r.unique_key) = true
  · simp only [h, if_true]
    refine List.mem_map.mpr ⟨x, hx, ?_⟩
    simp [hne]
  · simp only [Bool.not_eq_true] at h
    simp [h, List.mem_append, hx]

theorem upsertRow_key_unique (t : List Row) (r : Row) (x : Row)
    (hx : x ∈ upsertRow t r) (hkey : x.unique_key = r.unique_key) :
    (t.any (fun s => s.unique_key == r.unique_key) = false → x = r) ∧
    (x ∈ t ∨ x = r) := by
  unfold upsertRow at hx
  by_cases h : t.any (fun s => s.unique_key == r.unique_key) = true
  · simp only [h, if_true] at hx
    rcases List.mem_map.mp hx with ⟨y, hy, himg⟩
    constructor
    · intro hfalse; rw [h] at hfalse; cases hfalse
    · by_cases hyk : (y.unique_key == r.unique_key) = true
      · right; rw [← himg]; simp [hyk]
      · left
        have hxy : x = y := by rw [← himg]; simp [hyk]
        rw [hxy]; exact hy
  · simp only [Bool.not_eq_true] at h
    simp only [h, Bool.false_eq_true, if_false, List.mem_append,
      List.mem_singleton] at hx
    rcases hx with hx | hx
    · constructor
      · intro _
        exfalso
        have := List.any_eq_false.mp h x hx
        simp [hkey] at this
      · exact Or.inl hx
    · exact ⟨fun _ => hx, Or.inr hx⟩

theorem upsertRow_overwrites (t : List Row) (r : Row) (x : Row)
    (hx : x ∈ upsertRow t r) : x ∈ t ∨ x = r := by
  unfold upsertRow at hx
  by_cases h : t.any (fun s => s.unique_key == r.unique_key) = true
  · simp only [h, if_true] at hx
    rcases List.mem_map.mp hx with ⟨y, hy, himg⟩
    by_cases hyk : (y.unique_key == r.unique_key) = true
    · right; rw [← himg]; simp [hyk]
    · left
      have hxy : x = y := by rw [← himg]; simp [hyk]
      rw [hxy]; exact hy
  · simp only [Bool.not_eq_true] at h
    simp only [h, Bool.false_eq_true, if_false, List.mem_append,
      List.mem_singleton] at hx
    exact hx

/- ### C5 -/

/-- C5: `insert_batch` is atomic at the batch level.  With a failure oracle
`fail` for store-level write errors: if any row's write fails the whole batch
rolls back (the committed table is exactly the pre-batch table) and the
failure propagates as an `error`; if no write fails the batch commits as the
left fold of the per-row upsert.  The per-row upsert inserts the row when its
`unique_key` is absent and otherwise overwrites every non-key field: the new
row is present afterwards, rows with other keys are untouched, and any stored
row carrying the upserted key is exactly the new row. -/
theorem C5_insert_batch_atomic (table df : List Row) (fail : Row → Bool) :
    (df.any fail = true → insert_batch table df fail = .error table) ∧
    (df.any fail = false →
      insert_batch table df fail = .ok (df.foldl upsertRow table)) ∧
    (∀ t : List Row, ∀ r : Row,
      r ∈ upsertRow t r ∧
      (∀ x ∈ t, x.unique_key ≠ r.unique_key → x ∈ upsertRow t r) ∧
      (t.any (fun s => s.unique_key == r.unique_key) = false →
        ∀ x ∈ upsertRow t r, x.unique_key = r.unique_key → x = r) ∧
      (∀ x ∈ upsertRow t r, x ∈ t ∨ x = r)) := by
  refine ⟨?_, ?_, ?_⟩
  · intro h
    have hne : df.isEmpty = false := by
      cases df with
      | nil => simp at h
      | cons a l => rfl
    simp [insert_batch, hne, execMany_error fail df table h]
  · intro h
    by_cases he : df.isEmpty = true
    · rw [List.isEmpty_iff] at he
      subst he
      rfl
    · simp only [Bool.not_eq_true] at he
      simp [insert_batch, he, execMany_ok fail df table h]
  · intro t r
    refine ⟨upsertRow_mem_self t r, fun x hx hne => upsertRow_mem_other t r x hx hne,
      ?_, fun x hx => upsertRow_overwrites t r x hx⟩
    intro habs x hx hkey
    exact (upsertRow_key_unique t r x hx hkey).1 habs

/-- Witness for C5 at concrete inputs: a batch whose second row's write fails
rolls back to the original table and errors; the same batch with no failures
commits both upserts. -/
theorem C5_insert_batch_atomic_witness :
    insert_batch
        [{ unique_key := 1, created_date := 20230101, closed_date := none,
           agency := none, complaint_type := none, descriptor := none,
           borough := none, latitude := none, longitude := none }]
        [{ unique_key := 1, created_date := 20230202, closed_date := none,
           agency := some "DOT", complaint_type := none, descriptor := none,
           borough := none, latitude := none, longitude := none },
         { unique_key := 2, created_date := 20230303, closed_date := none,
           agency := none, complaint_type := none, descriptor := none,
           borough := none, latitude := none, longitude := none }]
        (fun r => r.unique_key == 2) =
      .error [{ unique_key := 1, created_date := 20230101, closed_date := none,
                agency := none, complaint_type := none, descriptor := none,
                borough := none, latitude := none, longitude := none }] ∧
    insert_batch
        [{ unique_key := 1, created_date := 20230101, closed_date := none,
           agency := none, complaint_type := none, descriptor := none,
           borough := none, latitude := none, longitude := none }]
        [{ unique_key := 1, created_date := 20230202, closed_date := none,
           agency := some "DOT", complaint_type := none, descriptor := none,
           borough := none, latitude := none, longitude := none }]
        (fun _ => false) =
      .ok [{ unique_key := 1, created_date := 20230202, closed_date := none,
             agency := some "DOT", complaint_type := none, descriptor := none,
             borough := none, latitude := none, longitude := none }] :=
  ⟨(C5_insert_batch_atomic _ _ _).1 (by decide),
   (C5_insert_batch_atomic _ _ _).2.1 (by decide)⟩

/- ### C6 -/

/-- Counterexample for C6: at counts `(0, 0)` the mismatch is `0`, which the
claim classifies as "in sync (returns normally)", yet the one-shot validator
raises "One of the databases is empty" (the emptiness check fires before the
mismatch classification and does not require the counts to differ). -/
theorem C6_counterexample :
    mismatchOf 0 0 = 0 ∧
    validate_counts 0 0 false = .error "One of the databases is empty" :=
  ⟨rfl, rfl⟩

/-- C6 (amended): in one-shot mode, either count being zero — including both
zero — raises; with both counts positive, a mismatch above 1000 raises, and
otherwise (in particular at mismatch 0) the validator returns
`(primary_count, secondary_count, mismatch)` normally. -/
theorem C6_validate_counts_amended (a b : Nat) :
    (a = 0 ∨ b = 0 →
      validate_counts a b false = .error "One of the databases is empty") ∧
    (a ≠ 0 → b ≠ 0 → mismatchOf a b > 1000 →
      validate_counts a b false =
        .error "Count difference between MySQL and MongoDB is too large") ∧
    (a ≠ 0 → b ≠ 0 → mismatchOf a b ≤ 1000 →
      validate_counts a b false = .ok (a, b, mismatchOf a b)) := by
  refine ⟨?_, ?_, ?_⟩
  · intro h
    have hc : (b == 0 || a == 0) = true := by
      rcases h with h | h <;> simp [h]
    simp [validate_counts, hc]
  · intro ha hb hm
    have hc : (b == 0 || a == 0) = false := by simp [ha, hb]
    simp [validate_counts, hc, hm]
  · intro ha hb hm
    have hc : (b == 0 || a == 0) = false := by simp [ha, hb]
    have hm2 : ¬(mismatchOf a b > 1000) := by omega
    simp [validate_counts, hc, hm2]

/-- Witness for C6 (amended) at the spec's own sample pairs: `(100, 0)` is a
hard failure, `(10000, 5)` exceeds the threshold, `(100, 100)` returns the
triple. -/
theorem C6_validate_counts_amended_witness :
    validate_counts 100 0 false = .error "One of the databases is empty" ∧
    validate_counts 10000 5 false =
      .error "Count difference between MySQL and MongoDB is too large" ∧
    validate_counts 100 100 false = .ok (100, 100, 0) :=
  ⟨(C6_validate_counts_amended 100 0).1 (Or.inr rfl),
   (C6_validate_counts_amended 10000 5).2.1 (by decide) (by decide) (by decide),
   (C6_validate_counts_amended 100 100).2.2 (by decide) (by decide) (by decide)⟩

/- ### C9 -/

theorem poll_step_iterations (st : PollerState) (o : CheckOutcome) :
    (poll_step st o).iterations = st.iterations + 1 := by
  cases o with
  | connError e => rfl
  | counts a b =>
      rcases h : validate_counts a b true with v | v <;> simp [poll_step, h]

theorem foldl_poll_iterations (outcomes : List CheckOutcome) :
    ∀ st : PollerState,
      (outcomes.foldl poll_step st).iterations = st.iterations + outcomes.length := by
  induction outcomes with
  | nil => intro st; simp
  | cons o rest ih =>
      intro st
      rw [List.foldl_cons, ih, poll_step_iterations]
      simp only [List.length_cons]
      omega

/-- C9: the continuous poller completes one loop iteration per scheduled
check, whatever mix of successful and raising checks the schedule contains —
an exception in a check is caught and logged, never terminating the loop —
and a successful check at the end of any schedule still publishes its gauges,
so no earlier failure has stopped the poller. -/
theorem C9_poller_survives_failures (outcomes : List CheckOutcome) :
    (run_metrics_server outcomes).iterations = outcomes.length ∧
    (∀ a b : Nat,
      (run_metrics_server (outcomes ++ [.counts a b])).gauges =
        some { mysql_row_count := a, mongo_doc_count := b,
               sync_mismatch_count := mismatchOf a b,
               sync_status := if mismatchOf a b == 0 then 1 else 0 }) := by
  constructor
  · rw [run_metrics_server, foldl_poll_iterations]
    simp
  · intro a b
    rw [run_metrics_server, List.foldl_append]
    simp only [List.foldl_cons, List.foldl_nil]
    rcases h : validate_counts a b true with v | v <;> simp [poll_step, h]

/- ### C7 -/

theorem ingestChunks_noFail :
    ∀ (chunks : List (List ChunkRow)) (table : List Row) (total : Nat),
      ∃ p, ingestChunks (fun _ => false) table chunks total = .ok p := by
  intro chunks
  induction chunks with
  | nil => intro table total; exact ⟨(table, total), rfl⟩
  | cons c rest ih =>
      intro table total
      by_cases hdf : ((clean_chunk c).1).isEmpty = true
      · simpa [ingestChunks, hdf] using ih table total
      · simp only [Bool.not_eq_true] at hdf
        have hb : insert_batch table (clean_chunk c).1 (fun _ => false) =
            .ok ((clean_chunk c).1.foldl upsertRow table) :=
          (C5_insert_batch_atomic table (clean_chunk c).1 (fun _ => false)).2.1
            (by simp)
        simpa [ingestChunks, hdf, hb] using
          ih ((clean_chunk c).1.foldl upsertRow table) (total + (clean_chunk c).1.length)

/-- C7: when no 4-digit year token exists in the source identifier, window
resolution is non-fatal in both scripts.  The ingest-side resolver raises
`ValueError`, but `cleanup_previous_data` catches it and skips the cleanup
(deleting nothing), and an otherwise-healthy ingest run still completes
normally; the sync-side resolver does not raise at all and falls back to the
current-year default window `[Jan 1 of the current year, Jan 1 of the next)`
with a warning. -/
theorem C7_window_unresolvable_nonfatal (filename : String) (table : List Row)
    (cy : Nat) (st : MySQLState) (chunks : List (List ChunkRow))
    (h : extractYear4 filename = none) :
    parse_date_range_from_filename filename =
      .error "Could not parse year from filename" ∧
    cleanup_previous_data table filename = table ∧
    parse_date_range_sync filename cy = (dateOfYear cy, dateOfYear (cy + 1)) ∧
    (∃ st2, ingest_mysql st filename chunks (fun _ => false) = .ok st2) := by
  have hp : parse_date_range_from_filename filename =
      .error "Could not parse year from filename" := by
    rw [parse_date_range_from_filename, h]
  refine ⟨hp, ?_, ?_, ?_⟩
  · rw [cleanup_previous_data, hp]
  · rw [parse_date_range_sync, h]
    rfl
  · by_cases hgate : log_ingestion_start st.ingestion_log filename = true
    · exact ⟨st, by simp [ingest_mysql, hgate]⟩
    · simp only [Bool.not_eq_true] at hgate
      obtain ⟨p, hp2⟩ := ingestChunks_noFail chunks
        (cleanup_previous_data st.service_requests filename) 0
      exact ⟨{ service_requests := p.1,
               ingestion_log := upsertLedger st.ingestion_log filename p.2 },
        by simp [ingest_mysql, hgate, hp2]⟩

/-- Witness for C7: the filename `"data.csv"` has no year token; cleanup
deletes nothing, the sync window falls back to the 2025 calendar year, and an
ingest run on an empty extract completes normally. -/
theorem C7_window_unresolvable_nonfatal_witness :
    cleanup_previous_data
        [{ unique_key := 5, created_date := 20250301, closed_date := none,
           agency := none, complaint_type := none, descriptor := none,
           borough := none, latitude := none, longitude := none }] "data.csv" =
      [{ unique_key := 5, created_date := 20250301, closed_date := none,
         agency := none, complaint_type := none, descriptor := none,
         borough := none, latitude := none, longitude := none }] ∧
    parse_date_range_sync "data.csv" 2025 = (20250101, 20260101) ∧
    (∃ st2, ingest_mysql { service_requests := [], ingestion_log := [] }
        "data.csv" [] (fun _ => false) = .ok st2) :=
  let h := C7_window_unresolvable_nonfatal "data.csv"
    [{ unique_key := 5, created_date := 20250301, closed_date := none,
       agency := none, complaint_type := none, descriptor := none,
       borough := none, latitude := none, longitude := none }]
    2025 { service_requests := [], ingestion_log := [] } [] (by decide)
  ⟨h.2.1, h.2.2.1, h.2.2.2⟩

/- ### C1 -/

theorem log_start_upsertLedger (log : List LedgerEntry) (f : String) (n : Nat) :
    log_ingestion_start (upsertLedger log f n) f = true := by
  unfold log_ingestion_start upsertLedger
  by_cases h : log.any (fun e => e.dataset_file == f) = true
  · simp only [h, if_true]
    rcases List.any_eq_true.mp h with ⟨x, hx, hkey⟩
    refine List.any_eq_true.mpr ⟨_, List.mem_map.mpr ⟨x, hx, rfl⟩, ?_⟩
    simp only [hkey, if_true]
  · simp only [Bool.not_eq_true] at h
    simp [h]

/-- C1: the ingestion ledger is an idempotency gate.  If an
`ingestion_log` entry exists for the file, `log_ingestion_start` reports it
and `ingest_mysql` returns with the database untouched — no cleanup, no
cleaning, no inserts; consequently, whenever a run of the loader completes
successfully, running it again on the same file is a no-op and leaves the
primary store (row set and row count) exactly as after the first run. -/
theorem C1_idempotent_reload (st : MySQLState) (filename : String)
    (chunks : List (List ChunkRow)) (fail : Row → Bool) :
    ((∃ e ∈ st.ingestion_log, e.dataset_file = filename) →
      log_ingestion_start st.ingestion_log filename = true ∧
      ingest_mysql st filename chunks fail = .ok st) ∧
    (∀ st1, ingest_mysql st filename chunks fail = .ok st1 →
      ingest_mysql st1 filename chunks fail = .ok st1) := by
  constructor
  · rintro ⟨e, he, hkey⟩
    have hgate : log_ingestion_start st.ingestion_log filename = true :=
      List.any_eq_true.mpr ⟨e, he, by simp [hkey]⟩
    exact ⟨hgate, by simp [ingest_mysql, hgate]⟩
  · intro st1 h1
    by_cases hgate : log_ingestion_start st.ingestion_log filename = true
    · simp only [ingest_mysql, hgate, if_true, Except.ok.injEq] at h1
      rw [← h1]
      simp [ingest_mysql, hgate]
    · simp only [Bool.not_eq_true] at hgate
      simp only [ingest_mysql, hgate, Bool.false_eq_true, if_false] at h1
      rcases hrun : ingestChunks fail
          (cleanup_previous_data st.service_requests filename) chunks 0 with p | p
      · rw [hrun] at h1; cases h1
      · rw [hrun] at h1
        simp only [Except.ok.injEq] at h1
        have hgate1 : log_ingestion_start st1.ingestion_log filename = true := by
          rw [← h1]
          exact log_start_upsertLedger st.ingestion_log filename p.2
        simp [ingest_mysql, hgate1]

/-- Witness for C1: with a ledger entry for the file present, the gate fires
and the run is a no-op; and a completed first run on a fresh database is
ledgered, so the second run returns its state unchanged. -/
theorem C1_idempotent_reload_witness :
    (log_ingestion_start
        ({ service_requests := [],
           ingestion_log := [{ dataset_file := "nyc_311_2023_sample.csv",
                               ingested_rows := 42 }] } : MySQLState).ingestion_log
        "nyc_311_2023_sample.csv" = true ∧
      ingest_mysql
        { service_requests := [],
          ingestion_log := [{ dataset_file := "nyc_311_2023_sample.csv",
                              ingested_rows := 42 }] }
        "nyc_311_2023_sample.csv" [] (fun _ => false) =
        .ok { service_requests := [],
              ingestion_log := [{ dataset_file := "nyc_311_2023_sample.csv",
                                  ingested_rows := 42 }] }) ∧
    ingest_mysql
        { service_requests := [],
          ingestion_log := [{ dataset_file := "nyc_311_2023_sample.csv",
                              ingested_rows := 0 }] }
        "nyc_311_2023_sample.csv" [] (fun _ => false) =
      .ok { service_requests := [],
            ingestion_log := [{ dataset_file := "nyc_311_2023_sample.csv",
                                ingested_rows := 0 }] } :=
  ⟨(C1_idempotent_reload
      { service_requests := [],
        ingestion_log := [{ dataset_file := "nyc_311_2023_sample.csv",
                            ingested_rows := 42 }] }
      "nyc_311_2023_sample.csv" [] (fun _ => false)).1
      ⟨{ dataset_file := "nyc_311_2023_sample.csv", ingested_rows := 42 },
        List.mem_singleton.mpr rfl, rfl⟩,
   (C1_idempotent_reload
      { service_requests := [], ingestion_log := [] }
      "nyc_311_2023_sample.csv" [] (fun _ => false)).2
      { service_requests := [],
        ingestion_log := [{ dataset_file := "nyc_311_2023_sample.csv",
                            ingested_rows := 0 }] }
      rfl⟩

/- ### C3 -/

/-- Counterexample for C3: a row with a null latitude (and an in-range
longitude), non-null `unique_key` and parseable `created_date` — the claim
says the geofence passes it through and it is retained — is in fact dropped:
the cleaned output is empty, although the row survives the required-field
filter (and, being alone, the dedup).  pandas `between` is `False` on `NaN`,
so the geofence keeps only rows with both coordinates present and in range. -/
theorem C3_counterexample :
    (clean_chunk
        [{ unique_key := some 1, created_date := some 20230506,
           closed_date := none, agency := some "NYPD",
           complaint_type := some "Noise - Residential", descriptor := none,
           borough := some "QUEENS", incident_zip := none,
           latitude := none, longitude := some (mkRat (-740060) 10000) }]).1 = [] ∧
    stage_required
        [{ unique_key := some 1, created_date := some 20230506,
           closed_date := none, agency := some "NYPD",
           complaint_type := some "Noise - Residential", descriptor := none,
           borough := some "QUEENS", incident_zip := none,
           latitude := none, longitude := some (mkRat (-740060) 10000) }] =
      [{ unique_key := some 1, created_date := some 20230506,
         closed_date := none, agency := some "NYPD",
         complaint_type := some "Noise - Residential", descriptor := none,
         borough := some "QUEENS", incident_zip := none,
         latitude := none, longitude := some (mkRat (-740060) 10000) }] := by
  decide

/-- C3 (amended): every row retained by `clean_chunk` has both coordinates
present and inside the box 40.5–40.9 × -74.3–-73.7; equivalently, the
geofence drops rows with a null coordinate along with out-of-box rows (null
coordinates do not pass through). -/
theorem C3_geofence_amended (rows : List ChunkRow) (c : Row)
    (h : c ∈ (clean_chunk rows).1) :
    ∃ la lo, c.latitude = some la ∧ c.longitude = some lo ∧
      (40.5 : ℚ) ≤ la ∧ la ≤ (40.9 : ℚ) ∧
      (-74.3 : ℚ) ≤ lo ∧ lo ≤ (-73.7 : ℚ) := by
  simp only [clean_chunk] at h
  rcases List.mem_filterMap.mp h with ⟨r, hr, hc⟩
  have hmask : nycMask r = true := (List.mem_filter.mp hr).2
  unfold nycMask at hmask
  rcases hla : r.latitude with _ | la <;> rw [hla] at hmask
  · simp at hmask
  rcases hlo : r.longitude with _ | lo <;> rw [hlo] at hmask
  · simp at hmask
  simp only [Bool.and_eq_true, decide_eq_true_eq] at hmask
  obtain ⟨⟨⟨h1, h2⟩, h3⟩, h4⟩ := hmask
  unfold toCleanRow at hc
  rcases hu : r.unique_key with _ | k <;> rw [hu] at hc
  · cases hc
  rcases hd : r.created_date with _ | d <;> rw [hd] at hc
  · cases hc
  simp only [Option.some.injEq] at hc
  refine ⟨la, lo, ?_, ?_, ?_, ?_, ?_, ?_⟩
  · rw [← hc]; exact hla
  · rw [← hc]; exact hlo
  · rw [← latLoBound_eq]; exact h1
  · rw [← latHiBound_eq]; exact h2
  · rw [← lngLoBound_eq]; exact h3
  · rw [← lngHiBound_eq]; exact h4

/-- Witness for C3 (amended): the retained cleaned row for an input at
`(40.7128, -74.0060)` indeed carries in-box coordinates. -/
theorem C3_geofence_amended_witness :
    ∃ la lo,
      ({ unique_key := 2, created_date := 20230506, closed_date := none,
         agency := none, complaint_type := none, descriptor := none,
         borough := some "QUEENS", latitude := some (mkRat 407128 10000),
         longitude := some (mkRat (-740060) 10000) } : Row).latitude = some la ∧
      ({ unique_key := 2, created_date := 20230506, closed_date := none,
         agency := none, complaint_type := none, descriptor := none,
         borough := some "QUEENS", latitude := some (mkRat 407128 10000),
         longitude := some (mkRat (-740060) 10000) } : Row).longitude = some lo ∧
      (40.5 : ℚ) ≤ la ∧ la ≤ (40.9 : ℚ) ∧
      (-74.3 : ℚ) ≤ lo ∧ lo ≤ (-73.7 : ℚ) :=
  C3_geofence_amended
    [{ unique_key := some 2, created_date := some 20230506, closed_date := none,
       agency := none, complaint_type := none, descriptor := none,
       borough := some "QUEENS", incident_zip := none,
       latitude := some (mkRat 407128 10000),
       longitude := some (mkRat (-740060) 10000) }]
    { unique_key := 2, created_date := 20230506, closed_date := none,
      agency := none, complaint_type := none, descriptor := none,
      borough := some "QUEENS", latitude := some (mkRat 407128 10000),
      longitude := some (mkRat (-740060) 10000) }
    (by decide)

/- ### C8 -/

theorem updateLast_append (l : List SyncLogEntry) (x : SyncLogEntry)
    (status : String) (n : Nat) :
    updateLast (l ++ [x]) status n =
      l ++ [{ x with status := status, rows_synced := n }] := by
  induction l with
  | nil => rfl
  | cons y ys ih =>
      cases ys with
      | nil => rfl
      | cons z zs =>
          simp only [List.cons_append, updateLast, List.append_eq] at ih ⊢
          rw [ih]

/-- C8: when the primary-store read for the resolved window returns zero
rows, `sync_to_mongo` closes this run's sync-ledger entry with status
`no_data` and `rows_synced = 0`, performs no document upserts (the collection
is exactly the post-cleanup collection), and returns normally — not as a
failure — for every bulk-write failure oracle. -/
theorem C8_no_data (mysql : List Row) (mongo : MongoState) (uri : String)
    (filename : Option String) (env_csv : String) (limit : Option Nat)
    (cy : Nat) (opFail : MDoc → Bool) (s e : Nat)
    (hw : parse_date_range_sync (resolve_filename filename env_csv) cy = (s, e))
    (hempty : fetch_mysql_rows mysql s e limit = []) :
    sync_to_mongo mysql mongo (some uri) filename limit cy opFail env_csv =
      .ok { coll := cleanup_previous_mongo mongo.coll s e,
            sync_log := mongo.sync_log ++
              [{ window_start := s, window_end := e, status := "no_data",
                 rows_synced := 0 }] } := by
  simp only [sync_to_mongo, Option.isNone_some, Bool.false_eq_true, if_false,
    hw, hempty, List.isEmpty_nil, if_true]
  rw [updateLast_append]

/-- Witness for C8: an empty primary store and the window `2023` — the run
returns `.ok` with a `no_data` ledger entry and an untouched collection. -/
theorem C8_no_data_witness :
    sync_to_mongo [] { coll := [], sync_log := [] } (some "mongodb://localhost")
        (some "311_2023.csv") none 2025 (fun _ => false) "./data/sample.csv" =
      .ok { coll := [],
            sync_log := [{ window_start := 20230101, window_end := 20240101,
                           status := "no_data", rows_synced := 0 }] } :=
  C8_no_data [] { coll := [], sync_log := [] } "mongodb://localhost"
    (some "311_2023.csv") "./data/sample.csv" none 2025 (fun _ => false)
    20230101 20240101 rfl rfl

/- ### Mongo upsert and batch-loop lemmas -/

theorem mongoUpsert_mem_preserved (c : List MDoc) (d x : MDoc)
    (hx : x ∈ c) (hne : d._id ≠ x._id) : x ∈ mongoUpsert c d := by
  unfold mongoUpsert
  by_cases h : c.any (fun y => y._id == d._id) = true
  · simp only [h, if_true]
    refine List.mem_map.mpr ⟨x, hx, ?_⟩
    have hb : (x._id == d._id) = false := by
      simp only [beq_eq_false_iff_ne, ne_eq]
      exact fun he => hne he.symm
    simp [hb]
  · simp only [Bool.not_eq_true] at h
    simp [h, hx]

theorem mongoUpsert_range (c : List MDoc) (d x : MDoc)
    (hx : x ∈ mongoUpsert c d) : x ∈ c ∨ x = d := by
  unfold mongoUpsert at hx
  by_cases h : c.any (fun y => y._id == d._id) = true
  · simp only [h, if_true] at hx
    rcases List.mem_map.mp hx with ⟨y, hy, himg⟩
    by_cases hyk : (y._id == d._id) = true
    · right; rw [← himg]; simp [hyk]
    · left
      have hxy : x = y := by rw [← himg]; simp [hyk]
      rw [hxy]; exact hy
  · simp only [Bool.not_eq_true] at h
    simp only [h, Bool.false_eq_true, if_false, List.mem_append,
      List.mem_singleton] at hx
    exact hx

theorem applyBatchCount_mem (opFail : MDoc → Bool) (x : MDoc) :
    ∀ (b : List MDoc) (c : List MDoc), x ∈ c → (∀ y ∈ b, y._id ≠ x._id) →
      x ∈ (applyBatchCount opFail c b).1 := by
  intro b
  induction b with
  | nil => intro c hc _; exact hc
  | cons d rest ih =>
      intro c hc hids
      by_cases hf : opFail d = true
      · simp only [applyBatchCount, hf, if_true]
        exact ih c hc (fun y hy => hids y (List.mem_cons_of_mem _ hy))
      · simp only [Bool.not_eq_true] at hf
        simp only [applyBatchCount, hf, Bool.false_eq_true, if_false]
        exact ih _
          (mongoUpsert_mem_preserved c d x hc (hids d (List.mem_cons_self _ _)))
          (fun y hy => hids y (List.mem_cons_of_mem _ hy))

theorem applyBatchCount_range (opFail : MDoc → Bool) (x : MDoc) :
    ∀ (b : List MDoc) (c : List MDoc),
      x ∈ (applyBatchCount opFail c b).1 → x ∈ c ∨ x ∈ b := by
  intro b
  induction b with
  | nil => intro c hc; exact Or.inl hc
  | cons d rest ih =>
      intro c hc
      by_cases hf : opFail d = true
      · simp only [applyBatchCount, hf, if_true] at hc
        rcases ih c hc with h | h
        · exact Or.inl h
        · exact Or.inr (List.mem_cons_of_mem _ h)
      · simp only [Bool.not_eq_true] at hf
        simp only [applyBatchCount, hf, Bool.false_eq_true, if_false] at hc
        rcases ih _ hc with h | h
        · rcases mongoUpsert_range c d x h with h2 | h2
          · exact Or.inl h2
          · exact Or.inr (h2 ▸ List.mem_cons_self _ _)
        · exact Or.inr (List.mem_cons_of_mem _ h)

theorem applyBatches_mem (opFail : MDoc → Bool) (x : MDoc) :
    ∀ (bs : List (List MDoc)) (c : List MDoc) (total : Nat),
      x ∈ c → (∀ b ∈ bs, ∀ y ∈ b, y._id ≠ x._id) →
      x ∈ batchesColl (applyBatches opFail c bs total) := by
  intro bs
  induction bs with
  | nil => intro c total hc _; exact hc
  | cons b rest ih =>
      intro c total hc hids
      have hx1 : x ∈ (applyBatchCount opFail c b).1 :=
        applyBatchCount_mem opFail x b c hc
          (fun y hy => hids b (List.mem_cons_self _ _) y hy)
      by_cases hfl : (applyBatchCount opFail c b).2.2 = true
      · simp only [applyBatches, hfl, if_true]
        exact hx1
      · simp only [Bool.not_eq_true] at hfl
        simp only [applyBatches, hfl, Bool.false_eq_true, if_false]
        exact ih _ _ hx1 (fun b2 hb2 => hids b2 (List.mem_cons_of_mem _ hb2))

theorem applyBatches_range (opFail : MDoc → Bool) (x : MDoc) :
    ∀ (bs : List (List MDoc)) (c : List MDoc) (total : Nat),
      x ∈ batchesColl (applyBatches opFail c bs total) →
      x ∈ c ∨ ∃ b ∈ bs, x ∈ b := by
  intro bs
  induction bs with
  | nil => intro c total hc; exact Or.inl hc
  | cons b rest ih =>
      intro c total hc
      by_cases hfl : (applyBatchCount opFail c b).2.2 = true
      · simp only [applyBatches, hfl, if_true] at hc
        rcases applyBatchCount_range opFail x b c hc with h | h
        · exact Or.inl h
        · exact Or.inr ⟨b, List.mem_cons_self _ _, h⟩
      · simp only [Bool.not_eq_true] at hfl
        simp only [applyBatches, hfl, Bool.false_eq_true, if_false] at hc
        rcases ih _ _ hc with h | ⟨b2, hb2, hxb2⟩
        · rcases applyBatchCount_range opFail x b c h with h2 | h2
          · exact Or.inl h2
          · exact Or.inr ⟨b, List.mem_cons_self _ _, h2⟩
        · exact Or.inr ⟨b2, List.mem_cons_of_mem _ hb2, hxb2⟩

theorem chunkList_sub : ∀ (n : Nat) (l : List MDoc), l.length ≤ n →
    ∀ b ∈ chunkList l, ∀ x ∈ b, x ∈ l := by
  intro n
  induction n with
  | zero =>
      intro l hl
      have : l = [] := List.length_eq_zero.mp (Nat.le_zero.mp hl)
      subst this
      simp [chunkList]
  | succ n ih =>
      intro l hl b hb x hx
      cases l with
      | nil => simp [chunkList] at hb
      | cons y ys =>
          rw [chunkList] at hb
          rcases List.mem_cons.mp hb with h | h
          · exact List.take_subset _ _ (h ▸ hx)
          · have hlen : (ys.drop 999).length ≤ n := by
              simp only [List.length_drop]
              have := List.length_cons y ys ▸ hl
              omega
            exact List.mem_cons_of_mem _
              (List.drop_subset _ _ (ih (ys.drop 999) hlen b h x hx))

theorem chunkList_small (l : List MDoc) (h1 : l ≠ []) (h2 : l.length ≤ 1000) :
    chunkList l = [l] := by
  cases l with
  | nil => exact absurd rfl h1
  | cons y ys =>
      rw [chunkList]
      have ht : (y :: ys).take 1000 = y :: ys :=
        List.take_of_length_le h2
      have hd : ys.drop 999 = [] := by
        apply List.drop_eq_nil_of_le
        have := List.length_cons y ys ▸ h2
        omega
      rw [ht, hd, chunkList]

theorem sync_to_mongo_cases (mysql : List Row) (mongo : MongoState)
    (uri : String) (filename : Option String) (limit : Option Nat) (cy : Nat)
    (opFail : MDoc → Bool) (env_csv : String) (s e : Nat)
    (hw : parse_date_range_sync (resolve_filename filename env_csv) cy = (s, e)) :
    sync_to_mongo mysql mongo (some uri) filename limit cy opFail env_csv =
      (let log1 := mongo.sync_log ++
         [{ window_start := s, window_end := e, status := "running",
            rows_synced := 0 }]
       let coll1 := cleanup_previous_mongo mongo.coll s e
       let rows := fetch_mysql_rows mysql s e limit
       if rows.isEmpty then
         .ok { coll := coll1, sync_log := updateLast log1 "no_data" 0 }
       else
         match applyBatches opFail coll1 (chunkList (rows.map row_to_doc)) 0 with
         | .error c2 => .error (.bulkWrite { coll := c2, sync_log := log1 })
         | .ok (c2, total) =>
             .ok { coll := c2, sync_log := updateLast log1 "success" total }) := by
  simp only [sync_to_mongo, Option.isNone_some, Bool.false_eq_true, if_false, hw]

theorem sync_to_mongo_small (mysql : List Row) (mongo : MongoState)
    (uri : String) (filename : Option String) (limit : Option Nat) (cy : Nat)
    (opFail : MDoc → Bool) (env_csv : String) (s e : Nat)
    (hw : parse_date_range_sync (resolve_filename filename env_csv) cy = (s, e))
    (hne : fetch_mysql_rows mysql s e limit ≠ [])
    (hlen : (fetch_mysql_rows mysql s e limit).length ≤ 1000) :
    sync_to_mongo mysql mongo (some uri) filename limit cy opFail env_csv =
      (let log1 := mongo.sync_log ++
         [{ window_start := s, window_end := e, status := "running",
            rows_synced := 0 }]
       let r := applyBatchCount opFail (cleanup_previous_mongo mongo.coll s e)
                  ((fetch_mysql_rows mysql s e limit).map row_to_doc)
       if r.2.2 then .error (.bulkWrite { coll := r.1, sync_log := log1 })
       else .ok { coll := r.1, sync_log := updateLast log1 "success" r.2.1 }) := by
  rw [sync_to_mongo_cases mysql mongo uri filename limit cy opFail env_csv s e hw]
  have hnemap : (fetch_mysql_rows mysql s e limit).map row_to_doc ≠ [] := by
    simpa using hne
  have hlenmap : ((fetch_mysql_rows mysql s e limit).map row_to_doc).length ≤ 1000 := by
    simpa using hlen
  have hemp : (fetch_mysql_rows mysql s e limit).isEmpty = false := by
    rcases hfe : fetch_mysql_rows mysql s e limit with _ | ⟨a, l⟩
    · exact absurd hfe hne
    · rfl
  simp only [hemp, Bool.false_eq_true, if_false]
  rw [chunkList_small _ hnemap hlenmap]
  simp only [applyBatches]
  by_cases hf : (applyBatchCount opFail (cleanup_previous_mongo mongo.coll s e)
      ((fetch_mysql_rows mysql s e limit).map row_to_doc)).2.2 = true
  · simp only [hf, if_true]
  · simp only [Bool.not_eq_true] at hf
    simp only [hf, Bool.false_eq_true, if_false, applyBatches, Nat.zero_add]

/- ### C2 -/

/-- Counterexample for C2: syncing window `[2023-01-01, 2024-01-01)` alters a
secondary-store document whose `created_date` (2022-06-01) lies outside the
window.  The stale document shares its `_id` with the `unique_key` of an
in-window primary row, so the keyed upsert replaces it: it is present before
the run, outside the window, and gone afterwards. -/
theorem C2_counterexample :
    ({ _id := 1, unique_key := 1, created_date := 20220601, closed_date := none,
       agency := some "NYPD", complaint_type := none, descriptor := none,
       borough := some "QUEENS", latitude := none, longitude := none } : MDoc) ∈
      ({ coll := [{ _id := 1, unique_key := 1, created_date := 20220601,
                    closed_date := none, agency := some "NYPD",
                    complaint_type := none, descriptor := none,
                    borough := some "QUEENS", latitude := none,
                    longitude := none }],
         sync_log := [] } : MongoState).coll ∧
    (20220601 : Nat) < 20230101 ∧
    sync_to_mongo
        [{ unique_key := 1, created_date := 20230501, closed_date := none,
           agency := some "NYPD", complaint_type := none, descriptor := none,
           borough := some "QUEENS", latitude := none, longitude := none }]
        { coll := [{ _id := 1, unique_key := 1, created_date := 20220601,
                     closed_date := none, agency := some "NYPD",
                     complaint_type := none, descriptor := none,
                     borough := some "QUEENS", latitude := none,
                     longitude := none }],
          sync_log := [] }
        (some "mongodb://localhost") (some "311_2023.csv") none 2025
        (fun _ => false) "cfg.csv" =
      .ok { coll := [{ _id := 1, unique_key := 1, created_date := 20230501,
                       closed_date := none, agency := some "NYPD",
                       complaint_type := none, descriptor := none,
                       borough := some "QUEENS", latitude := none,
                       longitude := none }],
            sync_log := [{ window_start := 20230101, window_end := 20240101,
                           status := "success", rows_synced := 1 }] } ∧
    ({ _id := 1, unique_key := 1, created_date := 20220601, closed_date := none,
       agency := some "NYPD", complaint_type := none, descriptor := none,
       borough := some "QUEENS", latitude := none, longitude := none } : MDoc) ∉
      [({ _id := 1, unique_key := 1, created_date := 20230501,
          closed_date := none, agency := some "NYPD", complaint_type := none,
          descriptor := none, borough := some "QUEENS", latitude := none,
          longitude := none } : MDoc)] := by
  refine ⟨List.mem_singleton.mpr rfl, by decide, ?_, by decide⟩
  rw [sync_to_mongo_small
    [{ unique_key := 1, created_date := 20230501, closed_date := none,
       agency := some "NYPD", complaint_type := none, descriptor := none,
       borough := some "QUEENS", latitude := none, longitude := none }]
    { coll := [{ _id := 1, unique_key := 1, created_date := 20220601,
                 closed_date := none, agency := some "NYPD",
                 complaint_type := none, descriptor := none,
                 borough := some "QUEENS", latitude := none,
                 longitude := none }],
      sync_log := [] }
    "mongodb://localhost" (some "311_2023.csv") none 2025 (fun _ => false)
    "cfg.csv" 20230101 20240101 rfl (by decide) (by decide)]
  rfl

/-- C2 (amended): the cleanup deletes only documents with `created_date` in
`[start, end)`, and the upserts write only documents built from primary rows
fetched within the window; hence a document whose `created_date` lies outside
the window is never altered **provided its `_id` is not the `unique_key` of
any fetched in-window primary row** (a stale document sharing its `_id` with
an in-window row is replaced by the keyed upsert — the one exception the
counterexample exhibits). -/
theorem C2_window_isolation_amended (mysql : List Row) (mongo : MongoState)
    (uri : String) (filename : Option String) (env_csv : String)
    (limit : Option Nat) (cy : Nat) (opFail : MDoc → Bool) (s e : Nat)
    (hw : parse_date_range_sync (resolve_filename filename env_csv) cy = (s, e))
    (d : MDoc) (hmem : d ∈ mongo.coll)
    (hout : d.created_date < s ∨ e ≤ d.created_date)
    (hkey : ∀ r ∈ fetch_mysql_rows mysql s e limit, r.unique_key ≠ d._id) :
    d ∈ resultColl
        (sync_to_mongo mysql mongo (some uri) filename limit cy opFail env_csv) ∧
    (∀ x ∈ mongo.coll, x ∉ cleanup_previous_mongo mongo.coll s e →
      s ≤ x.created_date ∧ x.created_date < e) ∧
    (∀ y ∈ resultColl
        (sync_to_mongo mysql mongo (some uri) filename limit cy opFail env_csv),
      y ∈ cleanup_previous_mongo mongo.coll s e ∨
      ∃ r ∈ fetch_mysql_rows mysql s e limit, y = row_to_doc r) := by
  have hcases :=
    sync_to_mongo_cases mysql mongo uri filename limit cy opFail env_csv s e hw
  have hd1 : d ∈ cleanup_previous_mongo mongo.coll s e := by
    refine List.mem_filter.mpr ⟨hmem, ?_⟩
    have hpred : (decide (s ≤ d.created_date) &&
        decide (d.created_date < e)) = false := by
      rcases hout with h | h
      · have hn : ¬ (s ≤ d.created_date) := by omega
        simp [hn]
      · have hn : ¬ (d.created_date < e) := by omega
        simp [hn]
    simp [hpred]
  refine ⟨?_, ?_, ?_⟩
  · rw [hcases]
    by_cases hemp : (fetch_mysql_rows mysql s e limit).isEmpty = true
    · simp only [hemp, if_true]
      exact hd1
    · simp only [Bool.not_eq_true] at hemp
      simp only [hemp, Bool.false_eq_true, if_false]
      have hids : ∀ b ∈ chunkList ((fetch_mysql_rows mysql s e limit).map row_to_doc),
          ∀ y ∈ b, y._id ≠ d._id := by
        intro b hb y hy
        have hy2 : y ∈ (fetch_mysql_rows mysql s e limit).map row_to_doc :=
          chunkList_sub _ _ le_rfl b hb y hy
        rcases List.mem_map.mp hy2 with ⟨r, hr, hrd⟩
        rw [← hrd]
        exact hkey r hr
      have hmem2 := applyBatches_mem opFail d _
        (cleanup_previous_mongo mongo.coll s e) 0 hd1 hids
      rcases happ : applyBatches opFail (cleanup_previous_mongo mongo.coll s e)
          (chunkList ((fetch_mysql_rows mysql s e limit).map row_to_doc)) 0
        with c2 | p
      · rw [happ] at hmem2
        simpa [batchesColl, resultColl, resultState] using hmem2
      · rw [happ] at hmem2
        rcases p with ⟨c2, total⟩
        simpa [batchesColl, resultColl, resultState] using hmem2
  · intro x hx hnot
    have hpred : ¬ ((!(decide (s ≤ x.created_date) &&
        decide (x.created_date < e))) = true) :=
      fun hp => hnot (List.mem_filter.mpr ⟨hx, hp⟩)
    simp only [Bool.not_eq_true', Bool.not_eq_false] at hpred
    simpa [Bool.and_eq_true, decide_eq_true_eq] using hpred
  · intro y hy
    rw [hcases] at hy
    by_cases hemp : (fetch_mysql_rows mysql s e limit).isEmpty = true
    · simp only [hemp, if_true] at hy
      exact Or.inl hy
    · simp only [Bool.not_eq_true] at hemp
      simp only [hemp, Bool.false_eq_true, if_false] at hy
      have hy2 : y ∈ batchesColl (applyBatches opFail
          (cleanup_previous_mongo mongo.coll s e)
          (chunkList ((fetch_mysql_rows mysql s e limit).map row_to_doc)) 0) := by
        rcases happ : applyBatches opFail (cleanup_previous_mongo mongo.coll s e)
            (chunkList ((fetch_mysql_rows mysql s e limit).map row_to_doc)) 0
          with c2 | p
        · rw [happ] at hy
          simpa [batchesColl, resultColl, resultState] using hy
        · rw [happ] at hy
          rcases p with ⟨c2, total⟩
          simpa [batchesColl, resultColl, resultState] using hy
      rcases applyBatches_range opFail y _ _ 0 hy2 with h | ⟨b, hb, hyb⟩
      · exact Or.inl h
      · right
        have hy3 : y ∈ (fetch_mysql_rows mysql s e limit).map row_to_doc :=
          chunkList_sub _ _ le_rfl b hb y hyb
        rcases List.mem_map.mp hy3 with ⟨r, hr, hrd⟩
        exact ⟨r, hr, hrd.symm⟩

/-- Witness for C2 (amended): a document dated 2022-06-01 whose `_id` (2)
matches no in-window primary key survives a sync of window 2023 untouched. -/
theorem C2_window_isolation_amended_witness :
    ({ _id := 2, unique_key := 2, created_date := 20220601, closed_date := none,
       agency := none, complaint_type := none, descriptor := none,
       borough := none, latitude := none, longitude := none } : MDoc) ∈
      resultColl (sync_to_mongo
        [{ unique_key := 1, created_date := 20230501, closed_date := none,
           agency := none, complaint_type := none, descriptor := none,
           borough := none, latitude := none, longitude := none }]
        { coll := [{ _id := 2, unique_key := 2, created_date := 20220601,
                     closed_date := none, agency := none,
                     complaint_type := none, descriptor := none,
                     borough := none, latitude := none, longitude := none }],
          sync_log := [] }
        (some "mongodb://localhost") (some "311_2023.csv") none 2025
        (fun _ => false) "cfg.csv") :=
  (C2_window_isolation_amended
    [{ unique_key := 1, created_date := 20230501, closed_date := none,
       agency := none, complaint_type := none, descriptor := none,
       borough := none, latitude := none, longitude := none }]
    { coll := [{ _id := 2, unique_key := 2, created_date := 20220601,
                 closed_date := none, agency := none, complaint_type := none,
                 descriptor := none, borough := none, latitude := none,
                 longitude := none }],
      sync_log := [] }
    "mongodb://localhost" (some "311_2023.csv") "cfg.csv" none 2025
    (fun _ => false) 20230101 20240101 rfl
    { _id := 2, unique_key := 2, created_date := 20220601, closed_date := none,
      agency := none, complaint_type := none, descriptor := none,
      borough := none, latitude := none, longitude := none }
    (by decide) (by decide) (by decide)).1

/- ### Keyed-document invariant lemmas (C10) -/

theorem all_map_congr (l : List MDoc) (g : MDoc → MDoc) (p q : MDoc → Bool)
    (h : ∀ x ∈ l, p (g x) = q x) : (l.map g).all p = l.all q := by
  induction l with
  | nil => rfl
  | cons a t ih =>
      simp only [List.map_cons, List.all_cons, h a (List.mem_cons_self _ _),
        ih (fun x hx => h x (List.mem_cons_of_mem _ hx))]

theorem all_of_sub (l m : List MDoc) (p : MDoc → Bool)
    (hsub : ∀ x ∈ m, x ∈ l) (h : l.all p = true) : m.all p = true :=
  List.all_eq_true.mpr fun x hx => List.all_eq_true.mp h x (hsub x hx)

theorem noDupBy_map_congr (f : MDoc → Nat) (l : List MDoc) (g : MDoc → MDoc)
    (h : ∀ x ∈ l, f (g x) = f x) : noDupBy f (l.map g) = noDupBy f l := by
  induction l with
  | nil => rfl
  | cons a t ih =>
      simp only [List.map_cons, noDupBy]
      rw [all_map_congr t g _ (fun x => !(f x == f a))
        (fun x hx => by rw [h x (List.mem_cons_of_mem _ hx),
          h a (List.mem_cons_self _ _)])]
      rw [ih (fun x hx => h x (List.mem_cons_of_mem _ hx))]

theorem noDupBy_filter (f : MDoc → Nat) (p : MDoc → Bool) (l : List MDoc)
    (h : noDupBy f l = true) : noDupBy f (l.filter p) = true := by
  induction l with
  | nil => rfl
  | cons a t ih =>
      simp only [noDupBy, Bool.and_eq_true] at h
      by_cases hp : p a = true
      · simp only [List.filter_cons, hp, if_true, noDupBy, Bool.and_eq_true]
        exact ⟨all_of_sub t (t.filter p) _
          (fun x hx => List.mem_of_mem_filter hx) h.1, ih h.2⟩
      · simp only [Bool.not_eq_true] at hp
        simpa [List.filter_cons, hp] using ih h.2

theorem all_filter_sub (p q : MDoc → Bool) (l : List MDoc)
    (h : l.all q = true) : (l.filter p).all q = true :=
  all_of_sub l (l.filter p) q (fun _ hx => List.mem_of_mem_filter hx) h

theorem noDupBy_append_singleton (f : MDoc → Nat) (l : List MDoc) (d : MDoc)
    (h : noDupBy f l = true) (hne : ∀ x ∈ l, f x ≠ f d) :
    noDupBy f (l ++ [d]) = true := by
  induction l with
  | nil => simp [noDupBy]
  | cons a t ih =>
      simp only [noDupBy, Bool.and_eq_true] at h
      simp only [List.cons_append, noDupBy, Bool.and_eq_true]
      refine ⟨List.all_eq_true.mpr ?_, ih h.2
        (fun x hx => hne x (List.mem_cons_of_mem _ hx))⟩
      intro x hx
      rcases List.mem_append.mp hx with hx | hx
      · exact List.all_eq_true.mp h.1 x hx
      · rw [List.mem_singleton.mp hx]
        have := hne a (List.mem_cons_self _ _)
        simp only [Bool.not_eq_true', beq_eq_false_iff_ne, ne_eq]
        omega

theorem mongoUpsert_noDup (c : List MDoc) (d : MDoc)
    (h : noDupBy MDoc._id c = true) :
    noDupBy MDoc._id (mongoUpsert c d) = true := by
  unfold mongoUpsert
  by_cases ha : c.any (fun y => y._id == d._id) = true
  · simp only [ha, if_true]
    rw [noDupBy_map_congr]
    · exact h
    · intro x _
      by_cases hx : (x._id == d._id) = true
      · simp only [hx, if_true]
        exact (beq_iff_eq.mp hx).symm
      · simp [hx]
  · simp only [Bool.not_eq_true] at ha
    simp only [ha, Bool.false_eq_true, if_false]
    refine noDupBy_append_singleton _ c d h ?_
    intro x hx
    have := List.any_eq_false.mp ha x hx
    simpa using this

theorem mongoUpsert_idsOK (c : List MDoc) (d : MDoc)
    (hc : collIdsOK c = true) (hd : d._id = d.unique_key) :
    collIdsOK (mongoUpsert c d) = true := by
  unfold mongoUpsert collIdsOK
  by_cases ha : c.any (fun y => y._id == d._id) = true
  · simp only [ha, if_true]
    refine List.all_eq_true.mpr ?_
    intro x hx
    rcases List.mem_map.mp hx with ⟨y, hy, himg⟩
    by_cases hyk : (y._id == d._id) = true
    · rw [← himg]
      simp only [hyk, if_true]
      simp [hd]
    · have hxy : x = y := by rw [← himg]; simp [hyk]
      rw [hxy]
      exact List.all_eq_true.mp hc y hy
  · simp only [Bool.not_eq_true] at ha
    simp only [ha, Bool.false_eq_true, if_false]
    refine List.all_eq_true.mpr ?_
    intro x hx
    rcases List.mem_append.mp hx with hx | hx
    · exact List.all_eq_true.mp hc x hx
    · rw [List.mem_singleton.mp hx]
      simp [hd]

theorem applyBatchCount_inv (opFail : MDoc → Bool) :
    ∀ (b : List MDoc) (c : List MDoc), collIdsOK c = true →
      noDupBy MDoc._id c = true → (∀ y ∈ b, y._id = y.unique_key) →
      collIdsOK (applyBatchCount opFail c b).1 = true ∧
      noDupBy MDoc._id (applyBatchCount opFail c b).1 = true := by
  intro b
  induction b with
  | nil => intro c h1 h2 _; exact ⟨h1, h2⟩
  | cons d rest ih =>
      intro c h1 h2 hb
      by_cases hf : opFail d = true
      · simp only [applyBatchCount, hf, if_true]
        exact ih c h1 h2 (fun y hy => hb y (List.mem_cons_of_mem _ hy))
      · simp only [Bool.not_eq_true] at hf
        simp only [applyBatchCount, hf, Bool.false_eq_true, if_false]
        exact ih (mongoUpsert c d)
          (mongoUpsert_idsOK c d h1 (hb d (List.mem_cons_self _ _)))
          (mongoUpsert_noDup c d h2)
          (fun y hy => hb y (List.mem_cons_of_mem _ hy))

theorem applyBatches_inv (opFail : MDoc → Bool) :
    ∀ (bs : List (List MDoc)) (c : List MDoc) (total : Nat),
      collIdsOK c = true → noDupBy MDoc._id c = true →
      (∀ b ∈ bs, ∀ y ∈ b, y._id = y.unique_key) →
      collIdsOK (batchesColl (applyBatches opFail c bs total)) = true ∧
      noDupBy MDoc._id (batchesColl (applyBatches opFail c bs total)) = true := by
  intro bs
  induction bs with
  | nil => intro c total h1 h2 _; exact ⟨h1, h2⟩
  | cons b rest ih =>
      intro c total h1 h2 hbs
      have hstep := applyBatchCount_inv opFail b c h1 h2
        (fun y hy => hbs b (List.mem_cons_self _ _) y hy)
      by_cases hfl : (applyBatchCount opFail c b).2.2 = true
      · simp only [applyBatches, hfl, if_true]
        exact ⟨hstep.1, hstep.2⟩
      · simp only [Bool.not_eq_true] at hfl
        simp only [applyBatches, hfl, Bool.false_eq_true, if_false]
        exact ih _ _ hstep.1 hstep.2
          (fun b2 hb2 => hbs b2 (List.mem_cons_of_mem _ hb2))

theorem noDupBy_uk_of_ids (c : List MDoc) (hids : collIdsOK c = true)
    (hnd : noDupBy MDoc._id c = true) :
    noDupBy MDoc.unique_key c = true := by
  induction c with
  | nil => rfl
  | cons a t ih =>
      simp only [collIdsOK, List.all_cons, Bool.and_eq_true] at hids
      simp only [noDupBy, Bool.and_eq_true] at hnd ⊢
      refine ⟨List.all_eq_true.mpr ?_, ih hids.2 hnd.2⟩
      intro x hx
      have hxid : x._id = x.unique_key :=
        beq_iff_eq.mp (List.all_eq_true.mp hids.2 x hx)
      have haid : a._id = a.unique_key := beq_iff_eq.mp hids.1
      have hne := List.all_eq_true.mp hnd.1 x hx
      simp only [Bool.not_eq_true', beq_eq_false_iff_ne, ne_eq] at hne ⊢
      omega

theorem sync_preserves_inv (mysql : List Row) (mongo : MongoState)
    (uri : String) (filename : Option String) (env_csv : String)
    (limit : Option Nat) (cy : Nat) (opFail : MDoc → Bool)
    (hids : collIdsOK mongo.coll = true)
    (hnd : noDupBy MDoc._id mongo.coll = true) :
    collIdsOK (resultColl
      (sync_to_mongo mysql mongo (some uri) filename limit cy opFail env_csv)) = true ∧
    noDupBy MDoc._id (resultColl
      (sync_to_mongo mysql mongo (some uri) filename limit cy opFail env_csv)) = true := by
  rcases hw : parse_date_range_sync (resolve_filename filename env_csv) cy with ⟨s, e⟩
  have hcases :=
    sync_to_mongo_cases mysql mongo uri filename limit cy opFail env_csv s e hw
  rw [hcases]
  have h1 : collIdsOK (cleanup_previous_mongo mongo.coll s e) = true := by
    unfold collIdsOK cleanup_previous_mongo
    exact all_filter_sub _ _ _ hids
  have h2 : noDupBy MDoc._id (cleanup_previous_mongo mongo.coll s e) = true :=
    noDupBy_filter _ _ _ hnd
  by_cases hemp : (fetch_mysql_rows mysql s e limit).isEmpty = true
  · simp only [hemp, if_true]
    exact ⟨h1, h2⟩
  · simp only [Bool.not_eq_true] at hemp
    simp only [hemp, Bool.false_eq_true, if_false]
    have hbs : ∀ b ∈ chunkList ((fetch_mysql_rows mysql s e limit).map row_to_doc),
        ∀ y ∈ b, y._id = y.unique_key := by
      intro b hb y hy
      have hy2 : y ∈ (fetch_mysql_rows mysql s e limit).map row_to_doc :=
        chunkList_sub _ _ le_rfl b hb y hy
      rcases List.mem_map.mp hy2 with ⟨r, _, hrd⟩
      rw [← hrd]
      rfl
    have hinv := applyBatches_inv opFail _
      (cleanup_previous_mongo mongo.coll s e) 0 h1 h2 hbs
    rcases happ : applyBatches opFail (cleanup_previous_mongo mongo.coll s e)
        (chunkList ((fetch_mysql_rows mysql s e limit).map row_to_doc)) 0
      with c2 | p
    · rw [happ] at hinv
      simpa [batchesColl, resultColl, resultState] using hinv
    · rw [happ] at hinv
      rcases p with ⟨c2, total⟩
      simpa [batchesColl, resultColl, resultState] using hinv

/- ### C10 -/

/-- C10: every document the sync engine writes has `_id` equal to the source
row's `unique_key` while keeping `unique_key` as an ordinary field, and each
upsert matches on `_id`; consequently (given MongoDB's `_id` uniqueness of
the starting collection, and that its documents follow the same
`_id = unique_key` discipline, as every sync-written document does) the
collection never holds two documents with the same `unique_key` — after one
sync of a window, and after re-running any further sync on top of it. -/
theorem C10_sync_upserts_by_id (mysql : List Row) (mongo : MongoState)
    (uri : String) (filename : Option String) (env_csv : String)
    (limit : Option Nat) (cy : Nat) (opFail : MDoc → Bool)
    (hids : collIdsOK mongo.coll = true)
    (hnd : noDupBy MDoc._id mongo.coll = true) :
    (∀ r : Row, (row_to_doc r)._id = r.unique_key ∧
      (row_to_doc r).unique_key = r.unique_key) ∧
    collIdsOK (resultColl
      (sync_to_mongo mysql mongo (some uri) filename limit cy opFail env_csv)) = true ∧
    noDupBy MDoc._id (resultColl
      (sync_to_mongo mysql mongo (some uri) filename limit cy opFail env_csv)) = true ∧
    noDupBy MDoc.unique_key (resultColl
      (sync_to_mongo mysql mongo (some uri) filename limit cy opFail env_csv)) = true ∧
    (∀ (mysql2 : List Row) (limit2 : Option Nat) (opFail2 : MDoc → Bool),
      noDupBy MDoc.unique_key (resultColl (sync_to_mongo mysql2
        (resultState
          (sync_to_mongo mysql mongo (some uri) filename limit cy opFail env_csv))
        (some uri) filename limit2 cy opFail2 env_csv)) = true) := by
  have hS1 := sync_preserves_inv mysql mongo uri filename env_csv limit cy
    opFail hids hnd
  refine ⟨fun r => ⟨rfl, rfl⟩, hS1.1, hS1.2,
    noDupBy_uk_of_ids _ hS1.1 hS1.2, ?_⟩
  intro mysql2 limit2 opFail2
  have hS2 := sync_preserves_inv mysql2
    (resultState
      (sync_to_mongo mysql mongo (some uri) filename limit cy opFail env_csv))
    uri filename env_csv limit2 cy opFail2 hS1.1 hS1.2
  exact noDupBy_uk_of_ids _ hS2.1 hS2.2

/-- Witness for C10: syncing window 2023 of a one-row primary store into an
empty collection yields a collection whose documents all satisfy
`_id = unique_key` and that carries no duplicate `unique_key`. -/
theorem C10_sync_upserts_by_id_witness :
    collIdsOK (resultColl (sync_to_mongo
        [{ unique_key := 1, created_date := 20230501, closed_date := none,
           agency := none, complaint_type := none, descriptor := none,
           borough := some "QUEENS", latitude := none, longitude := none }]
        { coll := [], sync_log := [] } (some "mongodb://localhost")
        (some "311_2023.csv") none 2025 (fun _ => false) "cfg.csv")) = true ∧
    noDupBy MDoc.unique_key (resultColl (sync_to_mongo
        [{ unique_key := 1, created_date := 20230501, closed_date := none,
           agency := none, complaint_type := none, descriptor := none,
           borough := some "QUEENS", latitude := none, longitude := none }]
        { coll := [], sync_log := [] } (some "mongodb://localhost")
        (some "311_2023.csv") none 2025 (fun _ => false) "cfg.csv")) = true :=
  ⟨(C10_sync_upserts_by_id
      [{ unique_key := 1, created_date := 20230501, closed_date := none,
         agency := none, complaint_type := none, descriptor := none,
         borough := some "QUEENS", latitude := none, longitude := none }]
      { coll := [], sync_log := [] } "mongodb://localhost"
      (some "311_2023.csv") "cfg.csv" none 2025 (fun _ => false)
      (by decide) (by decide)).2.1,
   (C10_sync_upserts_by_id
      [{ unique_key := 1, created_date := 20230501, closed_date := none,
         agency := none, complaint_type := none, descriptor := none,
         borough := some "QUEENS", latitude := none, longitude := none }]
      { coll := [], sync_log := [] } "mongodb://localhost"
      (some "311_2023.csv") "cfg.csv" none 2025 (fun _ => false)
      (by decide) (by decide)).2.2.2.1⟩

/- ### Dedup lemmas (C4) -/

theorem lastWithKey_none_iff (k : Nat) :
    ∀ l : List ChunkRow, lastWithKey k l = none ↔
      l.any (fun r => r.unique_key == some k) = false := by
  intro l
  induction l with
  | nil => simp [lastWithKey]
  | cons r rest ih =>
      rcases hrest : lastWithKey k rest with _ | s
      · have hany : rest.any (fun r => r.unique_key == some k) = false :=
          ih.mp hrest
        by_cases hk : (r.unique_key == some k) = true
        · simp [lastWithKey, hrest, hk, hany]
        · simp only [Bool.not_eq_true] at hk
          simp [lastWithKey, hrest, hk, hany]
      · have hany : rest.any (fun r => r.unique_key == some k) = true := by
          by_contra hcon
          simp only [Bool.not_eq_true] at hcon
          rw [ih.mpr hcon] at hrest
          cases hrest
        simp [lastWithKey, hrest, hany]

theorem mem_dedup_sub : ∀ (l : List ChunkRow) (x : ChunkRow),
    x ∈ dedupKeepLast l → x ∈ l := by
  intro l
  induction l with
  | nil => intro x hx; simp [dedupKeepLast] at hx
  | cons r rest ih =>
      intro x hx
      by_cases h : rest.any (fun s => s.unique_key == r.unique_key) = true
      · simp only [dedupKeepLast, h, if_true] at hx
        exact List.mem_cons_of_mem _ (ih x hx)
      · simp only [Bool.not_eq_true] at h
        simp only [dedupKeepLast, h, Bool.false_eq_true, if_false,
          List.mem_cons] at hx
        rcases hx with hx | hx
        · exact hx ▸ List.mem_cons_self _ _
        · exact List.mem_cons_of_mem _ (ih x hx)

theorem dedup_filter_eq (k : Nat) :
    ∀ l : List ChunkRow,
      (dedupKeepLast l).filter (fun r => r.unique_key == some k) =
        (lastWithKey k l).toList := by
  intro l
  induction l with
  | nil => simp [dedupKeepLast, lastWithKey]
  | cons r rest ih =>
      by_cases h : rest.any (fun s => s.unique_key == r.unique_key) = true
      · simp only [dedupKeepLast, h, if_true]
        rw [ih]
        congr 1
        rcases hrest : lastWithKey k rest with _ | s
        · by_cases hk : (r.unique_key == some k) = true
          · exfalso
            have hnone : rest.any (fun s => s.unique_key == some k) = false :=
              (lastWithKey_none_iff k rest).mp hrest
            rw [beq_iff_eq.mp hk] at h
            rw [h] at hnone
            cases hnone
          · simp only [Bool.not_eq_true] at hk
            simp [lastWithKey, hrest, hk]
        · simp [lastWithKey, hrest]
      · simp only [Bool.not_eq_true] at h
        simp only [dedupKeepLast, h, Bool.false_eq_true, if_false]
        by_cases hk : (r.unique_key == some k) = true
        · have hnone : lastWithKey k rest = none := by
            apply (lastWithKey_none_iff k rest).mpr
            rw [← beq_iff_eq.mp hk]
            exact h
          rw [List.filter_cons]
          simp only [hk, if_true]
          rw [ih, hnone]
          simp [lastWithKey, hnone, hk]
        · simp only [Bool.not_eq_true] at hk
          rw [List.filter_cons]
          simp only [hk, Bool.false_eq_true, if_false]
          rw [ih]
          congr 1
          rcases hrest : lastWithKey k rest with _ | s
          · simp [lastWithKey, hrest, hk]
          · simp [lastWithKey, hrest]

theorem inferBoroughFill_key (r : ChunkRow) :
    (inferBoroughFill r).unique_key = r.unique_key := by
  unfold inferBoroughFill
  by_cases h : r.borough.isNone = true <;> simp [h]

theorem filter_key_map (l : List ChunkRow) (k : Nat) :
    (l.map inferBoroughFill).filter (fun r => r.unique_key == some k) =
      (l.filter (fun r => r.unique_key == some k)).map inferBoroughFill := by
  induction l with
  | nil => rfl
  | cons a t ih =>
      simp only [List.map_cons, List.filter_cons, inferBoroughFill_key]
      by_cases hk : (a.unique_key == some k) = true
      · simp [hk, ih]
      · simp only [Bool.not_eq_true] at hk
        simp [hk, ih]

theorem filter_comm_masks (l : List ChunkRow) (k : Nat) :
    (l.filter nycMask).filter (fun r => r.unique_key == some k) =
      (l.filter (fun r => r.unique_key == some k)).filter nycMask := by
  rw [List.filter_filter, List.filter_filter]
  apply List.filter_congr
  intro x _
  exact Bool.and_comm _ _

theorem filter_key_filterMap (l : List ChunkRow) (k : Nat) :
    (l.filterMap toCleanRow).filter (fun c => c.unique_key == k) =
      (l.filter (fun r => r.unique_key == some k)).filterMap toCleanRow := by
  induction l with
  | nil => rfl
  | cons a t ih =>
      rcases hu : a.unique_key with _ | k2
      · have ht : toCleanRow a = none := by unfold toCleanRow; rw [hu]
        simp [List.filterMap_cons, List.filter_cons, ht, hu, ih]
      · rcases hd : a.created_date with _ | d
        · have ht : toCleanRow a = none := by unfold toCleanRow; rw [hu, hd]
          by_cases hk : (a.unique_key == some k) = true
          · simp [List.filterMap_cons, List.filter_cons, ht, hk, ih]
          · simp only [Bool.not_eq_true] at hk
            simp [List.filterMap_cons, List.filter_cons, ht, hk, ih]
        · have ht : toCleanRow a = some
              { unique_key := k2, created_date := d,
                closed_date := a.closed_date, agency := a.agency,
                complaint_type := a.complaint_type, descriptor := a.descriptor,
                borough := a.borough, latitude := a.latitude,
                longitude := a.longitude } := by
            unfold toCleanRow; rw [hu, hd]
          by_cases hk : (k2 == k) = true
          · have hak : (a.unique_key == some k) = true := by
              rw [hu]; simpa using hk
            simp [List.filterMap_cons, List.filter_cons, ht, hk, hak, ih]
          · simp only [Bool.not_eq_true] at hk
            have hak : (a.unique_key == some k) = false := by
              rw [hu]; simpa using hk
            simp [List.filterMap_cons, List.filter_cons, ht, hk, hak, ih]

theorem clean_chunk_key_filter (rows : List ChunkRow) (k : Nat) :
    (clean_chunk rows).1.filter (fun c => c.unique_key == k) =
      (((lastWithKey k (stage_required rows)).toList.map
        inferBoroughFill).filter nycMask).filterMap toCleanRow := by
  have h0 : (clean_chunk rows).1 =
      (((dedupKeepLast (stage_required rows)).map inferBoroughFill).filter
        nycMask).filterMap toCleanRow := rfl
  rw [h0, filter_key_filterMap, filter_comm_masks, filter_key_map,
    dedup_filter_eq]

/- ### C4 -/

/-- Counterexample for C4: a batch of two rows sharing `unique_key = 7`, each
with a non-null key and a parseable `created_date` but null coordinates — the
claim says the cleaned output contains exactly one row for that key — in fact
yields an empty cleaned output: the dedup survivor is then dropped by the
geofence, so there is no row at all for the key. -/
theorem C4_counterexample :
    (clean_chunk
        [{ unique_key := some 7, created_date := some 20230101,
           closed_date := none, agency := some "NYPD",
           complaint_type := some "Noise", descriptor := some "LOUD MUSIC",
           borough := some "QUEENS", incident_zip := none,
           latitude := none, longitude := none },
         { unique_key := some 7, created_date := some 20230202,
           closed_date := none, agency := some "NYPD",
           complaint_type := some "Noise", descriptor := some "BANGING",
           borough := some "QUEENS", incident_zip := none,
           latitude := none, longitude := none }]).1 = [] ∧
    (some "LOUD MUSIC" : Option String) ≠ some "BANGING" := by
  refine ⟨by decide, by decide⟩

/-- C4 (amended): deduplication keeps the last occurrence, but the geofence
can still drop it and borough inference can rewrite a null borough.  For
every batch and key: the cleaned output holds at most one row for that key;
and when the batch has a last occurrence `r` for the key (among rows with
non-null key and parseable date), the cleaned output for that key is exactly
the final-column image of `r` after borough inference if that row passes the
geofence, and empty otherwise. -/
theorem C4_dedup_keeps_last_amended (rows : List ChunkRow) (k : Nat) :
    (clean_chunk rows).1.countP (fun c => c.unique_key == k) ≤ 1 ∧
    (∀ r, lastWithKey k (stage_required rows) = some r →
      (clean_chunk rows).1.filter (fun c => c.unique_key == k) =
        if nycMask (inferBoroughFill r) then
          (toCleanRow (inferBoroughFill r)).toList
        else []) := by
  constructor
  · rw [List.countP_eq_length_filter, clean_chunk_key_filter]
    have h1 := List.length_filterMap_le toCleanRow
      (((lastWithKey k (stage_required rows)).toList.map
        inferBoroughFill).filter nycMask)
    have h2 := List.length_filter_le nycMask
      ((lastWithKey k (stage_required rows)).toList.map inferBoroughFill)
    have h3 : ((lastWithKey k (stage_required rows)).toList.map
        inferBoroughFill).length =
        (lastWithKey k (stage_required rows)).toList.length :=
      List.length_map _ _
    have h4 : (lastWithKey k (stage_required rows)).toList.length ≤ 1 := by
      cases lastWithKey k (stage_required rows) <;> simp
    omega
  · intro r hr
    rw [clean_chunk_key_filter, hr]
    by_cases hm : nycMask (inferBoroughFill r) = true
    · simp only [Option.toList_some, List.map_cons, List.map_nil,
        List.filter_cons, hm, if_true, List.filter_nil]
      cases ht : toCleanRow (inferBoroughFill r) <;>
        simp [List.filterMap_cons, ht]
    · simp only [Bool.not_eq_true] at hm
      simp [hm]

/-- Witness for C4 (amended): two rows with key 7 and in-box coordinates —
the cleaned output for key 7 is exactly the last occurrence (which here
passes the geofence and keeps its non-null borough). -/
theorem C4_dedup_keeps_last_amended_witness :
    (clean_chunk
        [{ unique_key := some 7, created_date := some 20230101,
           closed_date := none, agency := some "NYPD",
           complaint_type := some "Noise", descriptor := some "OLD",
           borough := some "QUEENS", incident_zip := none,
           latitude := some (mkRat 407128 10000),
           longitude := some (mkRat (-740060) 10000) },
         { unique_key := some 7, created_date := some 20230202,
           closed_date := none, agency := some "NYPD",
           complaint_type := some "Noise", descriptor := some "NEW",
           borough := some "BROOKLYN", incident_zip := none,
           latitude := some (mkRat 407128 10000),
           longitude := some (mkRat (-740060) 10000) }]).1.filter
      (fun c => c.unique_key == 7) =
      (if nycMask (inferBoroughFill
          { unique_key := some 7, created_date := some 20230202,
            closed_date := none, agency := some "NYPD",
            complaint_type := some "Noise", descriptor := some "NEW",
            borough := some "BROOKLYN", incident_zip := none,
            latitude := some (mkRat 407128 10000),
            longitude := some (mkRat (-740060) 10000) }) then
        (toCleanRow (inferBoroughFill
          { unique_key := some 7, created_date := some 20230202,
            closed_date := none, agency := some "NYPD",
            complaint_type := some "Noise", descriptor := some "NEW",
            borough := some "BROOKLYN", incident_zip := none,
            latitude := some (mkRat 407128 10000),
            longitude := some (mkRat (-740060) 10000) })).toList
      else []) ∧
    (if nycMask (inferBoroughFill
        { unique_key := some 7, created_date := some 20230202,
          closed_date := none, agency := some "NYPD",
          complaint_type := some "Noise", descriptor := some "NEW",
          borough := some "BROOKLYN", incident_zip := none,
          latitude := some (mkRat 407128 10000),
          longitude := some (mkRat (-740060) 10000) }) then
      (toCleanRow (inferBoroughFill
        { unique_key := some 7, created_date := some 20230202,
          closed_date := none, agency := some "NYPD",
          complaint_type := some "Noise", descriptor := some "NEW",
          borough := some "BROOKLYN", incident_zip := none,
          latitude := some (mkRat 407128 10000),
          longitude := some (mkRat (-740060) 10000) })).toList
    else []) =
      [{ unique_key := 7, created_date := 20230202, closed_date := none,
         agency := some "NYPD", complaint_type := some "Noise",
         descriptor := some "NEW", borough := some "BROOKLYN",
         latitude := some (mkRat 407128 10000),
         longitude := some (mkRat (-740060) 10000) }] :=
  ⟨(C4_dedup_keeps_last_amended
      [{ unique_key := some 7, created_date := some 20230101,
         closed_date := none, agency := some "NYPD",
         complaint_type := some "Noise", descriptor := some "OLD",
         borough := some "QUEENS", incident_zip := none,
         latitude := some (mkRat 407128 10000),
         longitude := some (mkRat (-740060) 10000) },
       { unique_key := some 7, created_date := some 20230202,
         closed_date := none, agency := some "NYPD",
         complaint_type := some "Noise", descriptor := some "NEW",
         borough := some "BROOKLYN", incident_zip := none,
         latitude := some (mkRat 407128 10000),
         longitude := some (mkRat (-740060) 10000) }] 7).2
    { unique_key := some 7, created_date := some 20230202,
      closed_date := none, agency := some "NYPD",
      complaint_type := some "Noise", descriptor := some "NEW",
      borough := some "BROOKLYN", incident_zip := none,
      latitude := some (mkRat 407128 10000),
      longitude := some (mkRat (-740060) 10000) }
    (by decide),
   by decide⟩
